import Mathlib

/-!
Verification development for the mahana-mcp-server repository.

The repository is a thin MCP tool-registration shim: a single route file
registers about 27 tools, each of which validates a typed input, makes a
bounded number of outbound calls (to the Supabase database client or to a
toolkit HTTP service via fetch), and reshapes the result into a fixed
text-wrapped JSON envelope.

This file gives a shallow embedding of that route file
(src/app/api/mcp/[transport]/route.ts):
  - a model of JSON values and of JSON.stringify (including the omission of
    object fields whose value is undefined);
  - request descriptors for every outbound call a handler issues, so that
    theorems can speak about the number and content of downstream calls;
  - collaborator oracles: each invocation consumes the responses of an
    arbitrary environment (database outcomes and HTTP outcomes, either a
    response or a thrown exception);
  - one Lean function per tool handler, translated line by line from the
    source, returning the response envelope together with the ordered list
    of outbound requests it issued;
  - models of the pieces of the runtime the handlers lean on: Date#toISOString
    (restricted to the years 1970 to 9999), POSIX single-quote removal, and a
    key/value view of the agent_memory table.

Conventions for the embedding:
  - JavaScript numbers are modelled as integers (no fractional inputs occur
    in the claims under study);
  - property access on a missing field yields the undefined value, and
    JSON.stringify of an object omits undefined fields exactly as in JS;
  - the Supabase client contract guarantees that data is an object or array
    whenever error is null; reading a field of a null data value is modelled
    as undefined rather than as a thrown TypeError, which only differs on
    oracle behaviours outside that contract.
-/

/-- Decimal digit character for a value below ten. -/
def digitChar (d : Nat) : Char := Char.ofNat (48 + d)

/-- Decimal digits of a natural number, most significant first. -/
def natDigits (n : Nat) : List Char :=
  if _h : n < 10 then [digitChar n]
  else natDigits (n / 10) ++ [digitChar (n % 10)]
termination_by n
decreasing_by
  simp_wf
  omega

/-- Decimal rendering of a natural number. -/
def natStr (n : Nat) : String := String.mk (natDigits n)

/-- Decimal rendering of an integer, as JSON.stringify renders integral numbers. -/
def intStr (n : Int) : String :=
  if n < 0 then String.mk (Char.ofNat 45 :: natDigits n.natAbs) else natStr n.toNat

/-- The double-quote character. -/
def dqChar : Char := Char.ofNat 34

/-- The backslash character. -/
def bsChar : Char := Char.ofNat 92

/-- The single-quote character. -/
def sqChar : Char := Char.ofNat 39

/-- JSON string escaping of one character; the embedding only needs the
quote and backslash escapes, which are the only ones JSON.stringify applies
to the strings occurring in this development. -/
def jsonEscapeChar (c : Char) : List Char :=
  if c = dqChar then [bsChar, dqChar]
  else if c = bsChar then [bsChar, bsChar]
  else [c]

/-- JSON rendering of a string literal, with surrounding double quotes. -/
def encodeStrLit (s : String) : String :=
  String.mk (dqChar :: (s.data.flatMap jsonEscapeChar) ++ [dqChar])

/-- Model of a JavaScript value that can appear in a tool payload: the JSON
values plus the undefined value, which JSON.stringify treats specially. -/
inductive Json where
  | null : Json
  | jsUndefValue : Json
  | bool (b : Bool) : Json
  | num (n : Int) : Json
  | str (s : String) : Json
  | arr (elems : List Json) : Json
  | obj (fields : List (String × Json)) : Json

/-- Whether a value is the undefined value. -/
def Json.isUndefValue : Json → Bool
  | .jsUndefValue => true
  | _ => false

mutual

/-- Model of JSON.stringify with no spacing: undefined object fields are
omitted and undefined array elements render as null, as in JavaScript. -/
def Json.encode : Json → String
  | .null => "null"
  | .jsUndefValue => "undefined"
  | .bool true => "true"
  | .bool false => "false"
  | .num n => intStr n
  | .str s => encodeStrLit s
  | .arr xs => "[" ++ encodeElems xs ++ "]"
  | .obj fs => "\x7b" ++ encodeFields fs ++ "\x7d"

/-- Comma-separated rendering of array elements. -/
def encodeElems : List Json → String
  | [] => ""
  | [x] => encodeArrElem x
  | x :: rest => encodeArrElem x ++ "," ++ encodeElems rest

/-- An undefined array element renders as null inside JSON.stringify. -/
def encodeArrElem (x : Json) : String :=
  if x.isUndefValue then "null" else x.encode

/-- Comma-separated rendering of object fields, skipping undefined values. -/
def encodeFields : List (String × Json) → String
  | [] => ""
  | (k, v) :: rest =>
    if v.isUndefValue then encodeFields rest
    else if rest.any (fun f => !f.2.isUndefValue) then
      encodeStrLit k ++ ":" ++ v.encode ++ "," ++ encodeFields rest
    else
      encodeStrLit k ++ ":" ++ v.encode

end

/-- First field of an object with the given key, or undefined: models JS
property access on the objects a collaborator returns. Property access on a
non-object is modelled as undefined (see the file header). -/
def jget (j : Json) (k : String) : Json :=
  match j with
  | .obj fs =>
    match fs.find? (fun f => f.1 == k) with
    | some f => f.2
    | none => .jsUndefValue
  | _ => .jsUndefValue

/-- JS truthiness of a value. -/
def jsTruthy : Json → Bool
  | .null => false
  | .jsUndefValue => false
  | .bool b => b
  | .num n => n != 0
  | .str s => s != ""
  | .arr _ => true
  | .obj _ => true

/-- Template-literal coercion of a value to a string; composite values are
approximated by the object placeholder (no claim depends on that case). -/
def jsTempl : Json → String
  | .null => "null"
  | .jsUndefValue => "undefined"
  | .bool true => "true"
  | .bool false => "false"
  | .num n => intStr n
  | .str s => s
  | .arr _ => "[object Object]"
  | .obj _ => "[object Object]"

/-- Model of the JS expression v || alt for a value in value position. -/
def jsOr (v alt : Json) : Json := if jsTruthy v then v else alt

/-- Model of a template interpolation of v || alt where alt is a string. -/
def jsOrTempl (v : Json) (alt : String) : String :=
  if jsTruthy v then jsTempl v else alt

/-- Length of an array response, with the JS fallback data?.length || 0. -/
def jsLenOr0 : Option Json → Int
  | some (.arr xs) => Int.ofNat xs.length
  | _ => 0

/-- A possibly-missing data value in a JSON position: null when absent. -/
def jsOrNull : Option Json → Json
  | some j => j
  | none => .null

/-- Property access through a possibly-missing data value. -/
def jgetO : Option Json → String → Json
  | some j, k => jget j k
  | none, _ => .jsUndefValue

/-- Model of the JS expression s || null for an optional string input. -/
def jsStrOrNull : Option String → Json
  | some s => if s = "" then .null else .str s
  | none => .null

/-- Model of the JS default expression s || dflt for an optional string. -/
def jsStrOrD (s : Option String) (dflt : String) : String :=
  match s with
  | some v => if v = "" then dflt else v
  | none => dflt

/-- Civil date (year, month, day) from days since the Unix epoch, for dates
on or after 1970-01-01; this is the standard era-based algorithm that the
JavaScript engine implements behind Date#toISOString. -/
def civilFromDays (z : Nat) : Nat × Nat × Nat :=
  let zz := z + 719468
  let era := zz / 146097
  let doe := zz % 146097
  let yoe := (doe - doe / 1460 + doe / 36524 - doe / 146096) / 365
  let y := yoe + era * 400
  let doy := doe - (365 * yoe + yoe / 4 - yoe / 100)
  let mp := (5 * doy + 2) / 153
  let d := doy - (153 * mp + 2) / 5 + 1
  let m := if mp < 10 then mp + 3 else mp - 9
  (if m ≤ 2 then y + 1 else y, m, d)

/-- Days since the Unix epoch from a civil date, inverse of civilFromDays on
the supported range. -/
def daysFromCivil (y m d : Nat) : Nat :=
  let y1 := if m ≤ 2 then y - 1 else y
  let era := y1 / 400
  let yoe := y1 % 400
  let mp := if m > 2 then m - 3 else m + 9
  let doy := (153 * mp + 2) / 5 + d - 1
  let doe := yoe * 365 + yoe / 4 - yoe / 100 + doy
  era * 146097 + doe - 719468

/-- Two-digit zero-padded decimal rendering. -/
def pad2 (n : Nat) : List Char := [digitChar (n / 10 % 10), digitChar (n % 10)]

/-- Three-digit zero-padded decimal rendering. -/
def pad3 (n : Nat) : List Char :=
  [digitChar (n / 100 % 10), digitChar (n / 10 % 10), digitChar (n % 10)]

/-- Four-digit zero-padded decimal rendering. -/
def pad4 (n : Nat) : List Char :=
  [digitChar (n / 1000 % 10), digitChar (n / 100 % 10), digitChar (n / 10 % 10),
   digitChar (n % 10)]

/-- Character list of Date#toISOString for a millisecond timestamp, modelled
for timestamps from 1970-01-01 up to the year 10000 (the four-digit-year
format the built-in produces on that range). -/
def toISOChars (n : Nat) : List Char :=
  let days := n / 86400000
  let msod := n % 86400000
  let hh := msod / 3600000
  let mi := msod % 3600000 / 60000
  let ss := msod % 60000 / 1000
  let f := msod % 1000
  let ymd := civilFromDays days
  pad4 ymd.1 ++ '-' :: pad2 ymd.2.1 ++ '-' :: pad2 ymd.2.2 ++
    'T' :: pad2 hh ++ ':' :: pad2 mi ++ ':' :: pad2 ss ++ '.' :: pad3 f ++ ['Z']

/-- Model of Date#toISOString on the supported range. -/
def toISOStringMs (n : Nat) : String := String.mk (toISOChars n)

/-- Numeric value of a decimal digit character. -/
def dval (c : Char) : Nat := c.toNat - 48

/-- Whether a character is a decimal digit. -/
def isDig (c : Char) : Bool := 48 ≤ c.toNat && c.toNat ≤ 57

/-- Parser for the fixed-width ISO-8601 timestamp format produced by
toISOChars, returning the millisecond timestamp it denotes. -/
def parseIsoChars : List Char → Option Nat
  | [y1, y2, y3, y4, s1, mo1, mo2, s2, d1, d2, t, h1, h2, s3, i1, i2, s4,
     e1, e2, dot, f1, f2, f3, zed] =>
    if s1 == '-' && s2 == '-' && t == 'T' && s3 == ':' && s4 == ':' &&
        dot == '.' && zed == 'Z' &&
        isDig y1 && isDig y2 && isDig y3 && isDig y4 &&
        isDig mo1 && isDig mo2 && isDig d1 && isDig d2 &&
        isDig h1 && isDig h2 && isDig i1 && isDig i2 &&
        isDig e1 && isDig e2 && isDig f1 && isDig f2 && isDig f3 then
      let y := dval y1 * 1000 + dval y2 * 100 + dval y3 * 10 + dval y4
      let mo := dval mo1 * 10 + dval mo2
      let dd := dval d1 * 10 + dval d2
      let hh := dval h1 * 10 + dval h2
      let mi := dval i1 * 10 + dval i2
      let ss := dval e1 * 10 + dval e2
      let f := dval f1 * 100 + dval f2 * 10 + dval f3
      if 1 ≤ mo && mo ≤ 12 && 1 ≤ dd && dd ≤ 31 && hh < 24 && mi < 60 && ss < 60 then
        some (daysFromCivil y mo dd * 86400000 +
          hh * 3600000 + mi * 60000 + ss * 1000 + f)
      else none
    else none
  | _ => none

/-- Millisecond timestamp obtained by parsing an ISO-8601 string. -/
def parseIsoMs (s : String) : Option Nat := parseIsoChars s.data

/-- Value of a Supabase filter: the zod schema admits a string, number or
boolean. -/
inductive SbValue where
  | s (v : String) : SbValue
  | n (v : Int) : SbValue
  | b (v : Bool) : SbValue
deriving DecidableEq

/-- A filter condition as the handlers receive and forward it; the operator
is kept as the raw string the schema validated. -/
structure SbFilter where
  column : String
  operator : String
  value : SbValue
deriving DecidableEq

/-- Descriptor of one outbound Supabase call, recording the final state of
the query builder when it is awaited: table, selected columns, filter
conditions (including eq shortcuts), ordering, row limit, and whether
single() was applied. -/
inductive DbReq where
  | select (table sel : String) (filters : List SbFilter)
      (ord : Option (String × Bool)) (lim : Option Int) (single : Bool) : DbReq
  | insert (table : String) (row : Json) (retSel : Option String) (single : Bool) : DbReq
  | update (table : String) (patch : Json) (filters : List SbFilter)
      (retSel : Option String) (single : Bool) : DbReq
  | delete (table : String) (filters : List SbFilter) (retSel : Option String) : DbReq
  | upsert (table : String) (row : Json) (onConflict : String) : DbReq

/-- Descriptor of one outbound call: a database call or an HTTP fetch. -/
inductive Request where
  | db (r : DbReq) : Request
  | http (url : String) : Request

/-- Outcome of an awaited Supabase call: either the client resolves with an
error field and a data field, or the await throws (network failure). -/
inductive DbOutcome where
  | resp (error : Option String) (data : Option Json) : DbOutcome
  | thrown (msg : String) : DbOutcome

/-- Outcome of an awaited fetch: either a response with its ok flag, status
and body (readable as JSON or as text), or a thrown network error. -/
inductive HttpOutcome where
  | resp (ok : Bool) (status : Nat) (bodyJson : Json) (bodyText : String) : HttpOutcome
  | thrown (msg : String) : HttpOutcome

/-- Collaborator oracle for one invocation: the outcome of the n-th database
call and of the n-th fetch the handler performs. -/
structure Collab where
  db : Nat → DbOutcome
  http : Nat → HttpOutcome

/-- Environment configuration and ambient state for one invocation: whether
the Supabase credentials are set, the TOOLKIT_BASE_URL variable, the current
time in milliseconds, the Math.random suffix used in generated session ids,
and the locale-formatted time string produced by the toLocaleString
collaborator. -/
structure Config where
  supabaseConfigured : Bool
  toolkitBaseUrlEnv : Option String
  nowMs : Nat
  randSuffix : String
  localeFormatted : String

/-- Resolved toolkit base URL with its hardcoded fallback. -/
def toolkitBaseUrl (cfg : Config) : String :=
  cfg.toolkitBaseUrlEnv.getD "https://mahana-mapper.vercel.app"

/-- ISO string for new Date().toISOString() at the invocation time. -/
def isoNow (cfg : Config) : String := toISOStringMs cfg.nowMs

/-- One element of a tool result content sequence. -/
structure ContentItem where
  ctype : String
  text : String
deriving DecidableEq

/-- A tool invocation result envelope. -/
structure Envelope where
  content : List ContentItem
  isError : Option Bool
deriving DecidableEq

/-- The success envelope shape every handler returns: one text item and no
isError field. -/
def okEnv (t : String) : Envelope := ⟨[⟨"text", t⟩], none⟩

/-- The failure envelope shape every handler returns: one text item and
isError set to true. -/
def errEnv (t : String) : Envelope := ⟨[⟨"text", t⟩], some true⟩

/-- Text of the first content item of an envelope. -/
def envText (e : Envelope) : String :=
  match e.content with
  | c :: _ => c.text
  | [] => ""

/-- Status filter input of get_recent_commands. -/
inductive CmdStatus where
  | completed | failed | all
deriving DecidableEq

/-- String form of a CmdStatus as validated by the schema. -/
def CmdStatus.toStr : CmdStatus → String
  | .completed => "completed"
  | .failed => "failed"
  | .all => "all"

/-- Agent type input of create_terminal_session. -/
inductive AgentType where
  | claude_code | shell | npm | custom
deriving DecidableEq

/-- String form of an AgentType as validated by the schema. -/
def AgentType.toStr : AgentType → String
  | .claude_code => "claude-code"
  | .shell => "shell"
  | .npm => "npm"
  | .custom => "custom"

/-- Session status filter input of list_terminal_sessions. -/
inductive SessStatus where
  | active | pending | closed | all
deriving DecidableEq

/-- String form of a SessStatus as validated by the schema. -/
def SessStatus.toStr : SessStatus → String
  | .active => "active"
  | .pending => "pending"
  | .closed => "closed"
  | .all => "all"

/-- Claude model input of start_claude_agent. -/
inductive ClaudeModel where
  | sonnet | opus | haiku
deriving DecidableEq

/-- String form of a ClaudeModel as validated by the schema. -/
def ClaudeModel.toStr : ClaudeModel → String
  | .sonnet => "sonnet"
  | .opus => "opus"
  | .haiku => "haiku"

/-- Section input of get_system_toolkit. -/
inductive ToolkitSection where
  | apis | cli | imports | supabase | costs | transforms
  | pipeline_stages | presets | data_paths | env_vars | all
deriving DecidableEq

/-- String form of a ToolkitSection as validated by the schema. -/
def ToolkitSection.toStr : ToolkitSection → String
  | .apis => "apis"
  | .cli => "cli"
  | .imports => "imports"
  | .supabase => "supabase"
  | .costs => "costs"
  | .transforms => "transforms"
  | .pipeline_stages => "pipeline_stages"
  | .presets => "presets"
  | .data_paths => "data_paths"
  | .env_vars => "env_vars"
  | .all => "all"

/-- Format input of get_callable_commands. -/
inductive CmdFormat where
  | markdown | json
deriving DecidableEq

/-- Format input of get_import_statements. -/
inductive ImpFormat where
  | typescript | json
deriving DecidableEq

/-- Category input of get_cli_reference. -/
inductive CliCategory where
  | pipeline | batch | synthesis | utility | all
deriving DecidableEq

/-- String form of a CliCategory as validated by the schema. -/
def CliCategory.toStr : CliCategory → String
  | .pipeline => "pipeline"
  | .batch => "batch"
  | .synthesis => "synthesis"
  | .utility => "utility"
  | .all => "all"

/-- Data path type input of lookup_data_path. -/
inductive DataPathType where
  | golden_records | scraped_data | text_corpus | embeddings
  | all_images | brreg_data | musicians | dossiers
deriving DecidableEq

/-- String form of a DataPathType as validated by the schema. -/
def DataPathType.toStr : DataPathType → String
  | .golden_records => "golden_records"
  | .scraped_data => "scraped_data"
  | .text_corpus => "text_corpus"
  | .embeddings => "embeddings"
  | .all_images => "all_images"
  | .brreg_data => "brreg_data"
  | .musicians => "musicians"
  | .dossiers => "dossiers"

/-- Result of a handler whose getSupabase() call throws because the
credentials are unconfigured: the catch-all wraps the thrown message. -/
def noSupabase : Envelope × List Request :=
  (errEnv "Error: Supabase credentials not configured", [])

/-- Payload of get_current_time (route.ts lines 35-51): iso and unix are
derived from the same Date value; formatted is the toLocaleString output. -/
def timePayload (cfg : Config) : Json :=
  .obj [("iso", .str (toISOStringMs cfg.nowMs)),
        ("unix", .num (Int.ofNat (cfg.nowMs / 1000))),
        ("formatted", .str cfg.localeFormatted)]

/-- Handler of the get_current_time tool: purely local, no outbound call. -/
def run_get_current_time (cfg : Config) : Envelope × List Request :=
  (okEnv (Json.encode (timePayload cfg)), [])

/-- Handler of the supabase_query tool (route.ts lines 58-102). -/
def run_supabase_query (cfg : Config) (o : Collab) (table : String)
    (sel : Option String) (filter : Option SbFilter) (lim : Option Int) :
    Envelope × List Request :=
  if cfg.supabaseConfigured then
    let req := Request.db (.select table (sel.getD "*") filter.toList none
      (some (lim.getD 100)) false)
    match o.db 0 with
    | .thrown m => (errEnv ("Error: " ++ m), [req])
    | .resp (some e) _ => (errEnv ("Error: " ++ e), [req])
    | .resp none d =>
      (okEnv (Json.encode (.obj [("success", .bool true),
        ("count", .num (jsLenOr0 d)), ("data", jsOrNull d)])), [req])
  else noSupabase

/-- Handler of the supabase_insert tool (route.ts lines 104-138). -/
def run_supabase_insert (cfg : Config) (o : Collab) (table : String)
    (data : Json) : Envelope × List Request :=
  if cfg.supabaseConfigured then
    let req := Request.db (.insert table data (some "*") false)
    match o.db 0 with
    | .thrown m => (errEnv ("Error: " ++ m), [req])
    | .resp (some e) _ => (errEnv ("Error: " ++ e), [req])
    | .resp none d =>
      (okEnv (Json.encode (.obj [("success", .bool true),
        ("inserted", jsOrNull d)])), [req])
  else noSupabase

/-- Handler of the supabase_update tool (route.ts lines 141-182). -/
def run_supabase_update (cfg : Config) (o : Collab) (table : String)
    (data : Json) (filter : SbFilter) : Envelope × List Request :=
  if cfg.supabaseConfigured then
    let req := Request.db (.update table data [filter] (some "*") false)
    match o.db 0 with
    | .thrown m => (errEnv ("Error: " ++ m), [req])
    | .resp (some e) _ => (errEnv ("Error: " ++ e), [req])
    | .resp none d =>
      (okEnv (Json.encode (.obj [("success", .bool true),
        ("updated", .num (jsLenOr0 d)), ("data", jsOrNull d)])), [req])
  else noSupabase

/-- Handler of the supabase_delete tool (route.ts lines 184-224). -/
def run_supabase_delete (cfg : Config) (o : Collab) (table : String)
    (filter : SbFilter) : Envelope × List Request :=
  if cfg.supabaseConfigured then
    let req := Request.db (.delete table [filter] (some "*"))
    match o.db 0 with
    | .thrown m => (errEnv ("Error: " ++ m), [req])
    | .resp (some e) _ => (errEnv ("Error: " ++ e), [req])
    | .resp none d =>
      (okEnv (Json.encode (.obj [("success", .bool true),
        ("deleted", .num (jsLenOr0 d))])), [req])
  else noSupabase

/-- Handler of the run_terminal_command tool (route.ts lines 230-278). -/
def run_run_terminal_command (cfg : Config) (o : Collab) (command : String)
    (intent : Option String) : Envelope × List Request :=
  if cfg.supabaseConfigured then
    let req := Request.db (.insert "voice_messages_tasks"
      (.obj [("command_text", .str command.trim),
             ("intent", jsStrOrNull intent),
             ("status", .str "pending"),
             ("created_at", .str (isoNow cfg))])
      (some "id, command_text, status, created_at") true)
    match o.db 0 with
    | .thrown m => (errEnv ("Error: " ++ m), [req])
    | .resp (some e) _ => (errEnv ("Error queueing command: " ++ e), [req])
    | .resp none d =>
      (okEnv (Json.encode (.obj [("success", .bool true),
        ("task_id", jgetO d "id"),
        ("command", jgetO d "command_text"),
        ("status", jgetO d "status"),
        ("message", .str "Command queued for terminal execution. The terminal will run it shortly.")])),
       [req])
  else noSupabase

/-- Handler of the check_command_status tool (route.ts lines 280-334). -/
def run_check_command_status (cfg : Config) (o : Collab) (task_id : Int) :
    Envelope × List Request :=
  if cfg.supabaseConfigured then
    let req := Request.db (.select "voice_messages_tasks"
      "id, command_text, intent, status, response_data, created_at, processed_at, completed_at"
      [⟨"id", "eq", .n task_id⟩] none none true)
    match o.db 0 with
    | .thrown m => (errEnv ("Error: " ++ m), [req])
    | .resp (some e) _ => (errEnv ("Error checking status: " ++ e), [req])
    | .resp none none =>
      (errEnv ("Task " ++ intStr task_id ++ " not found"), [req])
    | .resp none (some dj) =>
      (okEnv (Json.encode (.obj [("success", .bool true),
        ("task", .obj [("id", jget dj "id"),
          ("command", jget dj "command_text"),
          ("intent", jget dj "intent"),
          ("status", jget dj "status"),
          ("result", jget dj "response_data"),
          ("created_at", jget dj "created_at"),
          ("completed_at", jget dj "completed_at")])])), [req])
  else noSupabase

/-- Handler of the get_pending_commands tool (route.ts lines 336-377). -/
def run_get_pending_commands (cfg : Config) (o : Collab) (lim : Option Int) :
    Envelope × List Request :=
  if cfg.supabaseConfigured then
    let req := Request.db (.select "voice_messages_tasks"
      "id, command_text, intent, status, created_at"
      [⟨"status", "eq", .s "pending"⟩] (some ("created_at", true))
      (some (lim.getD 10)) false)
    match o.db 0 with
    | .thrown m => (errEnv ("Error: " ++ m), [req])
    | .resp (some e) _ => (errEnv ("Error fetching pending commands: " ++ e), [req])
    | .resp none d =>
      (okEnv (Json.encode (.obj [("success", .bool true),
        ("count", .num (jsLenOr0 d)),
        ("pending_commands", jsOrNull d)])), [req])
  else noSupabase

/-- Per-row reshaping of get_recent_commands (route.ts lines 415-422). -/
def recentCmdRow (cmd : Json) : Json :=
  .obj [("id", jget cmd "id"),
        ("command", jget cmd "command_text"),
        ("status", jget cmd "status"),
        ("result", jget cmd "response_data"),
        ("created_at", jget cmd "created_at"),
        ("completed_at", jget cmd "completed_at")]

/-- Model of data?.map(f) on a possibly-missing array response. -/
def jsMapArr (d : Option Json) (f : Json → Json) : Json :=
  match d with
  | some (.arr xs) => .arr (xs.map f)
  | _ => .jsUndefValue

/-- Handler of the get_recent_commands tool (route.ts lines 379-433). -/
def run_get_recent_commands (cfg : Config) (o : Collab) (lim : Option Int)
    (status : Option CmdStatus) : Envelope × List Request :=
  if cfg.supabaseConfigured then
    let st := status.getD .all
    let req := Request.db (.select "voice_messages_tasks"
      "id, command_text, intent, status, response_data, created_at, completed_at"
      (if st = .all then [] else [⟨"status", "eq", .s st.toStr⟩])
      (some ("created_at", false)) (some (lim.getD 5)) false)
    match o.db 0 with
    | .thrown m => (errEnv ("Error: " ++ m), [req])
    | .resp (some e) _ => (errEnv ("Error fetching recent commands: " ++ e), [req])
    | .resp none d =>
      (okEnv (Json.encode (.obj [("success", .bool true),
        ("count", .num (jsLenOr0 d)),
        ("recent_commands", jsMapArr d recentCmdRow)])), [req])
  else noSupabase

/-- Handler of the create_terminal_session tool (route.ts lines 439-491). -/
def run_create_terminal_session (cfg : Config) (o : Collab) (name : String)
    (working_directory : Option String) (agent_type : Option AgentType) :
    Envelope × List Request :=
  if cfg.supabaseConfigured then
    let sessionId := "term-" ++ natStr cfg.nowMs ++ "-" ++ cfg.randSuffix
    let req := Request.db (.insert "terminal_sessions"
      (.obj [("id", .str sessionId),
             ("name", .str name),
             ("working_directory", .str (jsStrOrD working_directory "~")),
             ("agent_type", .str (agent_type.getD .shell).toStr),
             ("status", .str "pending"),
             ("created_at", .str (isoNow cfg))]) (some "*") true)
    match o.db 0 with
    | .thrown m => (errEnv ("Error: " ++ m), [req])
    | .resp (some e) _ => (errEnv ("Error creating session: " ++ e), [req])
    | .resp none d =>
      (okEnv (Json.encode (.obj [("success", .bool true),
        ("session_id", jgetO d "id"),
        ("name", jgetO d "name"),
        ("status", .str "pending"),
        ("message", .str "Terminal session created. i-View will spawn the terminal shortly.")])),
       [req])
  else noSupabase

/-- Per-row reshaping of list_terminal_sessions (route.ts lines 528-536). -/
def sessionRow (s : Json) : Json :=
  .obj [("id", jget s "id"),
        ("name", jget s "name"),
        ("agent_type", jget s "agent_type"),
        ("status", jget s "status"),
        ("working_directory", jget s "working_directory"),
        ("created_at", jget s "created_at"),
        ("last_activity", jget s "last_activity_at")]

/-- Handler of the list_terminal_sessions tool (route.ts lines 493-547). -/
def run_list_terminal_sessions (cfg : Config) (o : Collab)
    (status : Option SessStatus) : Envelope × List Request :=
  if cfg.supabaseConfigured then
    let st := status.getD .active
    let req := Request.db (.select "terminal_sessions" "*"
      (if st = .all then [] else [⟨"status", "eq", .s st.toStr⟩])
      (some ("created_at", false)) (some 20) false)
    match o.db 0 with
    | .thrown m => (errEnv ("Error: " ++ m), [req])
    | .resp (some e) _ => (errEnv ("Error listing sessions: " ++ e), [req])
    | .resp none d =>
      (okEnv (Json.encode (.obj [("success", .bool true),
        ("count", .num (jsLenOr0 d)),
        ("sessions", jsMapArr d sessionRow)])), [req])
  else noSupabase

/-- Handler of the switch_terminal_session tool (route.ts lines 549-606):
one update on terminal_sessions, then one fire-and-forget insert into
voice_messages_tasks whose resolved value is discarded. -/
def run_switch_terminal_session (cfg : Config) (o : Collab)
    (session_id : String) : Envelope × List Request :=
  if cfg.supabaseConfigured then
    let req0 := Request.db (.update "terminal_sessions"
      (.obj [("is_focused", .bool true),
             ("last_activity_at", .str (isoNow cfg))])
      [⟨"id", "eq", .s session_id⟩] (some "*") true)
    match o.db 0 with
    | .thrown m => (errEnv ("Error: " ++ m), [req0])
    | .resp (some e) _ => (errEnv ("Error switching session: " ++ e), [req0])
    | .resp none d =>
      let req1 := Request.db (.insert "voice_messages_tasks"
        (.obj [("command_text", .str ("__SWITCH_SESSION__:" ++ session_id)),
               ("intent", .str "switch_terminal"),
               ("parameters", .obj [("session_id", .str session_id),
                                    ("action", .str "switch")]),
               ("status", .str "pending"),
               ("created_at", .str (isoNow cfg))]) none false)
      match o.db 1 with
      | .thrown m => (errEnv ("Error: " ++ m), [req0, req1])
      | .resp _ _ =>
        (okEnv (Json.encode (.obj [("success", .bool true),
          ("session_id", .str session_id),
          ("name", jgetO d "name"),
          ("message", .str ("Switched to terminal session: " ++
            jsOrTempl (jgetO d "name") session_id))])), [req0, req1])
  else noSupabase

/-- Handler of the close_terminal_session tool (route.ts lines 608-661):
one update (without select) on terminal_sessions, then one fire-and-forget
insert into voice_messages_tasks. -/
def run_close_terminal_session (cfg : Config) (o : Collab)
    (session_id : String) : Envelope × List Request :=
  if cfg.supabaseConfigured then
    let req0 := Request.db (.update "terminal_sessions"
      (.obj [("status", .str "closed"),
             ("closed_at", .str (isoNow cfg))])
      [⟨"id", "eq", .s session_id⟩] none false)
    match o.db 0 with
    | .thrown m => (errEnv ("Error: " ++ m), [req0])
    | .resp (some e) _ => (errEnv ("Error closing session: " ++ e), [req0])
    | .resp none _ =>
      let req1 := Request.db (.insert "voice_messages_tasks"
        (.obj [("command_text", .str ("__CLOSE_SESSION__:" ++ session_id)),
               ("intent", .str "close_terminal"),
               ("parameters", .obj [("session_id", .str session_id),
                                    ("action", .str "close")]),
               ("status", .str "pending"),
               ("created_at", .str (isoNow cfg))]) none false)
      match o.db 1 with
      | .thrown m => (errEnv ("Error: " ++ m), [req0, req1])
      | .resp _ _ =>
        (okEnv (Json.encode (.obj [("success", .bool true),
          ("session_id", .str session_id),
          ("message", .str "Terminal session marked for closure.")])),
         [req0, req1])
  else noSupabase

/-- Escaping of the initial prompt for the shell (route.ts line 710):
each single quote is replaced by quote backslash quote quote. -/
def escapePromptChars : List Char → List Char
  | [] => []
  | c :: rest =>
    if c = sqChar then sqChar :: bsChar :: sqChar :: sqChar :: escapePromptChars rest
    else c :: escapePromptChars rest

/-- String form of the prompt escaping. -/
def escapePrompt (p : String) : String := String.mk (escapePromptChars p.data)

/-- The claude command built by start_claude_agent (route.ts lines 703-712):
a model flag when the model is not the default, then the escaped initial
prompt wrapped in single quotes when the prompt is a truthy string. -/
def buildClaudeCmd (mdl : ClaudeModel) (initial_prompt : Option String) : String :=
  let c1 := "claude"
  let c2 := if mdl ≠ ClaudeModel.sonnet then c1 ++ " --model " ++ mdl.toStr else c1
  match initial_prompt with
  | some p =>
    if p = "" then c2
    else c2 ++ " " ++ String.mk (sqChar :: (escapePrompt p).data ++ [sqChar])
  | none => c2

/-- Undefined-aware conversion of an optional string input in a JS object
literal position: an absent input is the undefined value there. -/
def optStrJson : Option String → Json
  | some s => .str s
  | none => .jsUndefValue

/-- Handler of the start_claude_agent tool (route.ts lines 667-753): one
insert creating the session row, then one fire-and-forget insert queueing
the start command. -/
def run_start_claude_agent (cfg : Config) (o : Collab) (name : String)
    (working_directory : Option String) (initial_prompt : Option String)
    (mdl : Option ClaudeModel) : Envelope × List Request :=
  if cfg.supabaseConfigured then
    let m := mdl.getD .sonnet
    let sessionId := "claude-" ++ natStr cfg.nowMs ++ "-" ++ cfg.randSuffix
    let req0 := Request.db (.insert "terminal_sessions"
      (.obj [("id", .str sessionId),
             ("name", .str name),
             ("working_directory", .str (jsStrOrD working_directory "~")),
             ("agent_type", .str "claude-code"),
             ("status", .str "pending"),
             ("metadata", .obj [("model", .str m.toStr),
                                ("initial_prompt", optStrJson initial_prompt)]),
             ("created_at", .str (isoNow cfg))]) (some "*") true)
    match o.db 0 with
    | .thrown msg => (errEnv ("Error: " ++ msg), [req0])
    | .resp (some e) _ => (errEnv ("Error creating Claude session: " ++ e), [req0])
    | .resp none _ =>
      let req1 := Request.db (.insert "voice_messages_tasks"
        (.obj [("command_text", .str ("__START_CLAUDE__:" ++ sessionId)),
               ("intent", .str "start_claude_agent"),
               ("parameters", .obj [("session_id", .str sessionId),
                  ("action", .str "start_claude"),
                  ("working_directory", optStrJson working_directory),
                  ("claude_command", .str (buildClaudeCmd m initial_prompt)),
                  ("model", .str m.toStr),
                  ("initial_prompt", optStrJson initial_prompt)]),
               ("status", .str "pending"),
               ("session_id", .str sessionId),
               ("created_at", .str (isoNow cfg))]) none false)
      match o.db 1 with
      | .thrown msg => (errEnv ("Error: " ++ msg), [req0, req1])
      | .resp _ _ =>
        (okEnv (Json.encode (.obj [("success", .bool true),
          ("session_id", .str sessionId),
          ("name", .str name),
          ("model", .str m.toStr),
          ("message", .str ("Claude Code agent \"" ++ name ++ "\" is starting. It will be ready shortly.")),
          ("initial_prompt", .str (match initial_prompt with
            | some p => if p = "" then "None" else "Provided"
            | none => "None"))])), [req0, req1])
  else noSupabase

/-- Handler of the send_to_claude_agent tool (route.ts lines 755-830): a
session lookup, the message insert, then a fire-and-forget activity update.
A failed or empty session lookup is reported as Session not found. -/
def run_send_to_claude_agent (cfg : Config) (o : Collab) (session_id : String)
    (message : String) : Envelope × List Request :=
  if cfg.supabaseConfigured then
    let req0 := Request.db (.select "terminal_sessions" "*"
      [⟨"id", "eq", .s session_id⟩] none none true)
    match o.db 0 with
    | .thrown m => (errEnv ("Error: " ++ m), [req0])
    | .resp (some _) _ => (errEnv ("Session not found: " ++ session_id), [req0])
    | .resp none none => (errEnv ("Session not found: " ++ session_id), [req0])
    | .resp none (some s) =>
      let req1 := Request.db (.insert "voice_messages_tasks"
        (.obj [("command_text", .str message),
               ("intent", .str "claude_message"),
               ("parameters", .obj [("session_id", .str session_id),
                  ("action", .str "send_message"),
                  ("target", .str "claude-code")]),
               ("status", .str "pending"),
               ("session_id", .str session_id),
               ("created_at", .str (isoNow cfg))]) (some "*") true)
      match o.db 1 with
      | .thrown m => (errEnv ("Error: " ++ m), [req0, req1])
      | .resp (some e) _ => (errEnv ("Error sending message: " ++ e), [req0, req1])
      | .resp none d2 =>
        let req2 := Request.db (.update "terminal_sessions"
          (.obj [("last_activity_at", .str (isoNow cfg))])
          [⟨"id", "eq", .s session_id⟩] none false)
        match o.db 2 with
        | .thrown m => (errEnv ("Error: " ++ m), [req0, req1, req2])
        | .resp _ _ =>
          (okEnv (Json.encode (.obj [("success", .bool true),
            ("task_id", jgetO d2 "id"),
            ("session_id", .str session_id),
            ("session_name", jget s "name"),
            ("message", .str ("Message sent to Claude agent \"" ++
              jsTempl (jget s "name") ++ "\"."))])), [req0, req1, req2])
  else noSupabase

/-- Per-row reshaping of the recent activity list in get_claude_agent_status
(route.ts lines 879-885). -/
def activityRow (t : Json) : Json :=
  .obj [("id", jget t "id"),
        ("command", match jget t "command_text" with
          | .str s => .str (s.take 100)
          | _ => .jsUndefValue),
        ("status", jget t "status"),
        ("has_result", .bool (jsTruthy (jget t "response_data"))),
        ("created_at", jget t "created_at")]

/-- Handler of the get_claude_agent_status tool (route.ts lines 832-896): a
session lookup, then a recent-tasks query whose error field is discarded
(only its data is destructured). -/
def run_get_claude_agent_status (cfg : Config) (o : Collab)
    (session_id : String) : Envelope × List Request :=
  if cfg.supabaseConfigured then
    let req0 := Request.db (.select "terminal_sessions" "*"
      [⟨"id", "eq", .s session_id⟩] none none true)
    match o.db 0 with
    | .thrown m => (errEnv ("Error: " ++ m), [req0])
    | .resp (some _) _ => (errEnv ("Session not found: " ++ session_id), [req0])
    | .resp none none => (errEnv ("Session not found: " ++ session_id), [req0])
    | .resp none (some s) =>
      let req1 := Request.db (.select "voice_messages_tasks" "*"
        [⟨"session_id", "eq", .s session_id⟩] (some ("created_at", false))
        (some 5) false)
      match o.db 1 with
      | .thrown m => (errEnv ("Error: " ++ m), [req0, req1])
      | .resp _ rt =>
        (okEnv (Json.encode (.obj [("success", .bool true),
          ("session", .obj [("id", jget s "id"),
            ("name", jget s "name"),
            ("status", jget s "status"),
            ("agent_type", jget s "agent_type"),
            ("working_directory", jget s "working_directory"),
            ("model", jget (jget s "metadata") "model"),
            ("created_at", jget s "created_at"),
            ("last_activity", jget s "last_activity_at")]),
          ("recent_activity", jsMapArr rt activityRow)])), [req0, req1])
  else noSupabase

/-- Rows of an array response, with the JS fallback data?.filter(...) || []. -/
def rowsOf : Option Json → List Json
  | some (.arr xs) => xs
  | _ => []

/-- Client-side status filter of list_claude_agents (route.ts lines 920-922). -/
def filterStatus (xs : List Json) (st : String) : List Json :=
  xs.filter (fun s =>
    match jget s "status" with
    | .str v => v == st
    | _ => false)

/-- Per-row reshaping of list_claude_agents (route.ts lines 934-942). -/
def agentRow (s : Json) : Json :=
  .obj [("id", jget s "id"),
        ("name", jget s "name"),
        ("status", jget s "status"),
        ("model", jsOr (jget (jget s "metadata") "model") (.str "sonnet")),
        ("working_directory", jget s "working_directory"),
        ("created_at", jget s "created_at"),
        ("last_activity", jget s "last_activity_at")]

/-- Handler of the list_claude_agents tool (route.ts lines 898-953). -/
def run_list_claude_agents (cfg : Config) (o : Collab) :
    Envelope × List Request :=
  if cfg.supabaseConfigured then
    let req := Request.db (.select "terminal_sessions" "*"
      [⟨"agent_type", "eq", .s "claude-code"⟩] (some ("created_at", false))
      (some 10) false)
    match o.db 0 with
    | .thrown m => (errEnv ("Error: " ++ m), [req])
    | .resp (some e) _ => (errEnv ("Error listing agents: " ++ e), [req])
    | .resp none d =>
      (okEnv (Json.encode (.obj [("success", .bool true),
        ("summary", .obj [
          ("active", .num (Int.ofNat (filterStatus (rowsOf d) "active").length)),
          ("pending", .num (Int.ofNat (filterStatus (rowsOf d) "pending").length)),
          ("closed", .num (Int.ofNat (filterStatus (rowsOf d) "closed").length))]),
        ("agents", jsMapArr d agentRow)])), [req])
  else noSupabase

/-- Handler of the store_memory tool (route.ts lines 959-1000): one upsert
on agent_memory keyed on the key column. -/
def run_store_memory (cfg : Config) (o : Collab) (key value : String)
    (category : Option String) : Envelope × List Request :=
  if cfg.supabaseConfigured then
    let req := Request.db (.upsert "agent_memory"
      (.obj [("key", .str key),
             ("value", .str value),
             ("category", .str (jsStrOrD category "general")),
             ("updated_at", .str (isoNow cfg))]) "key")
    match o.db 0 with
    | .thrown m => (errEnv ("Error: " ++ m), [req])
    | .resp (some e) _ => (errEnv ("Error storing memory: " ++ e), [req])
    | .resp none _ =>
      (okEnv (Json.encode (.obj [("success", .bool true),
        ("stored", .str key)])), [req])
  else noSupabase

/-- Handler of the recall_memory tool (route.ts lines 1002-1044): an eq
filter is added for the key and for the category only when the input is a
truthy string, then the query is limited to 20 rows. -/
def run_recall_memory (cfg : Config) (o : Collab) (key category : Option String) :
    Envelope × List Request :=
  if cfg.supabaseConfigured then
    let req := Request.db (.select "agent_memory" "*"
      ((match key with
        | some k => if k = "" then [] else [(⟨"key", "eq", .s k⟩ : SbFilter)]
        | none => []) ++
       (match category with
        | some c => if c = "" then [] else [(⟨"category", "eq", .s c⟩ : SbFilter)]
        | none => []))
      none (some 20) false)
    match o.db 0 with
    | .thrown m => (errEnv ("Error: " ++ m), [req])
    | .resp (some e) _ => (errEnv ("Error recalling memory: " ++ e), [req])
    | .resp none d =>
      (okEnv (Json.encode (.obj [("success", .bool true),
        ("memories", jsOrNull d)])), [req])
  else noSupabase

/-- Handler of the get_system_toolkit tool (route.ts lines 1052-1088): one
fetch; a non-ok response throws HTTP status into the catch-all. -/
def run_get_system_toolkit (cfg : Config) (o : Collab)
    (sec : Option ToolkitSection) : Envelope × List Request :=
  let s := sec.getD .all
  let url := if s = ToolkitSection.all then toolkitBaseUrl cfg ++ "/api/toolkit"
    else toolkitBaseUrl cfg ++ "/api/toolkit?section=" ++ s.toStr
  match o.http 0 with
  | .thrown m => (errEnv ("Error fetching toolkit: " ++ m), [.http url])
  | .resp ok status bj _ =>
    if ok then
      (okEnv (Json.encode (.obj [("success", .bool true),
        ("section", .str s.toStr),
        ("toolkit", bj)])), [.http url])
    else (errEnv ("Error fetching toolkit: HTTP " ++ natStr status), [.http url])

/-- Handler of the get_callable_commands tool (route.ts lines 1090-1126):
in json format the body is read as JSON and wrapped; in the default
markdown format the raw body text is prefixed with a markdown header. -/
def run_get_callable_commands (cfg : Config) (o : Collab)
    (format : Option CmdFormat) : Envelope × List Request :=
  let f := format.getD .markdown
  let url := if f = CmdFormat.json
    then toolkitBaseUrl cfg ++ "/api/toolkit/commands?format=json"
    else toolkitBaseUrl cfg ++ "/api/toolkit/commands"
  match o.http 0 with
  | .thrown m => (errEnv ("Error fetching commands: " ++ m), [.http url])
  | .resp ok status bj bt =>
    if ok then
      (okEnv (if f = CmdFormat.json
        then Json.encode (.obj [("success", .bool true), ("commands", bj)])
        else "# Callable Commands\n\n" ++ bt), [.http url])
    else (errEnv ("Error fetching commands: HTTP " ++ natStr status), [.http url])

/-- Handler of the get_import_statements tool (route.ts lines 1128-1164):
in the default json format the body is read as JSON and wrapped; in
typescript format the raw body text is returned as the payload. -/
def run_get_import_statements (cfg : Config) (o : Collab)
    (format : Option ImpFormat) : Envelope × List Request :=
  let f := format.getD .json
  let url := if f = ImpFormat.json
    then toolkitBaseUrl cfg ++ "/api/toolkit/imports?format=json"
    else toolkitBaseUrl cfg ++ "/api/toolkit/imports"
  match o.http 0 with
  | .thrown m => (errEnv ("Error fetching imports: " ++ m), [.http url])
  | .resp ok status bj bt =>
    if ok then
      (okEnv (if f = ImpFormat.json
        then Json.encode (.obj [("success", .bool true), ("imports", bj)])
        else bt), [.http url])
    else (errEnv ("Error fetching imports: HTTP " ++ natStr status), [.http url])

/-- Handler of the get_api_reference tool (route.ts lines 1166-1196). -/
def run_get_api_reference (cfg : Config) (o : Collab) :
    Envelope × List Request :=
  let url := toolkitBaseUrl cfg ++ "/api/toolkit?section=apis"
  match o.http 0 with
  | .thrown m => (errEnv ("Error fetching API reference: " ++ m), [.http url])
  | .resp ok status bj _ =>
    if ok then
      (okEnv (Json.encode (.obj [("success", .bool true),
        ("description", .str "Mahana API Endpoints"),
        ("apis", jget bj "apis")])), [.http url])
    else (errEnv ("Error fetching API reference: HTTP " ++ natStr status), [.http url])

/-- Handler of the get_cli_reference tool (route.ts lines 1198-1236): the
cli section of the toolkit, whole or keyed by the requested category. -/
def run_get_cli_reference (cfg : Config) (o : Collab)
    (category : Option CliCategory) : Envelope × List Request :=
  let cat := category.getD .all
  let url := toolkitBaseUrl cfg ++ "/api/toolkit?section=cli"
  match o.http 0 with
  | .thrown m => (errEnv ("Error fetching CLI reference: " ++ m), [.http url])
  | .resp ok status bj _ =>
    if ok then
      (okEnv (Json.encode (.obj [("success", .bool true),
        ("description", .str "Mahana CLI Commands"),
        ("category", .str cat.toStr),
        ("commands", if cat = CliCategory.all then jget bj "cli"
          else .obj [(cat.toStr, jget (jget bj "cli") cat.toStr)])])), [.http url])
    else (errEnv ("Error fetching CLI reference: HTTP " ++ natStr status), [.http url])

/-- Handler of the get_cost_reference tool (route.ts lines 1238-1268). -/
def run_get_cost_reference (cfg : Config) (o : Collab) :
    Envelope × List Request :=
  let url := toolkitBaseUrl cfg ++ "/api/toolkit?section=costs"
  match o.http 0 with
  | .thrown m => (errEnv ("Error fetching cost reference: " ++ m), [.http url])
  | .resp ok status bj _ =>
    if ok then
      (okEnv (Json.encode (.obj [("success", .bool true),
        ("description", .str "Mahana Operation Costs (USD)"),
        ("costs", jget bj "costs")])), [.http url])
    else (errEnv ("Error fetching cost reference: HTTP " ++ natStr status), [.http url])

/-- Handler of the get_pipeline_reference tool (route.ts lines 1270-1301). -/
def run_get_pipeline_reference (cfg : Config) (o : Collab) :
    Envelope × List Request :=
  let url := toolkitBaseUrl cfg ++ "/api/toolkit"
  match o.http 0 with
  | .thrown m => (errEnv ("Error fetching pipeline reference: " ++ m), [.http url])
  | .resp ok status bj _ =>
    if ok then
      (okEnv (Json.encode (.obj [("success", .bool true),
        ("description", .str "Mahana Pipeline Stages"),
        ("stages", jget bj "pipeline_stages"),
        ("presets", jget bj "presets")])), [.http url])
    else (errEnv ("Error fetching pipeline reference: HTTP " ++ natStr status), [.http url])

/-- Handler of the lookup_data_path tool (route.ts lines 1303-1337). -/
def run_lookup_data_path (cfg : Config) (o : Collab) (t : DataPathType) :
    Envelope × List Request :=
  let url := toolkitBaseUrl cfg ++ "/api/toolkit?section=data_paths"
  match o.http 0 with
  | .thrown m => (errEnv ("Error fetching data paths: " ++ m), [.http url])
  | .resp ok status bj _ =>
    if ok then
      (okEnv (Json.encode (.obj [("success", .bool true),
        ("type", .str t.toStr),
        ("path", jget (jget bj "data_paths") t.toStr),
        ("all_paths", jget bj "data_paths")])), [.http url])
    else (errEnv ("Error fetching data paths: HTTP " ++ natStr status), [.http url])

/-- A validated tool invocation: one constructor per registered tool, holding
the input fields after schema validation, with absent optional fields as
none. -/
inductive ToolCall where
  | get_current_time : ToolCall
  | supabase_query (table : String) (sel : Option String)
      (filter : Option SbFilter) (lim : Option Int) : ToolCall
  | supabase_insert (table : String) (data : Json) : ToolCall
  | supabase_update (table : String) (data : Json) (filter : SbFilter) : ToolCall
  | supabase_delete (table : String) (filter : SbFilter) : ToolCall
  | run_terminal_command (command : String) (intent : Option String) : ToolCall
  | check_command_status (task_id : Int) : ToolCall
  | get_pending_commands (lim : Option Int) : ToolCall
  | get_recent_commands (lim : Option Int) (status : Option CmdStatus) : ToolCall
  | create_terminal_session (name : String) (working_directory : Option String)
      (agent_type : Option AgentType) : ToolCall
  | list_terminal_sessions (status : Option SessStatus) : ToolCall
  | switch_terminal_session (session_id : String) : ToolCall
  | close_terminal_session (session_id : String) : ToolCall
  | start_claude_agent (name : String) (working_directory : Option String)
      (initial_prompt : Option String) (mdl : Option ClaudeModel) : ToolCall
  | send_to_claude_agent (session_id : String) (message : String) : ToolCall
  | get_claude_agent_status (session_id : String) : ToolCall
  | list_claude_agents : ToolCall
  | store_memory (key value : String) (category : Option String) : ToolCall
  | recall_memory (key category : Option String) : ToolCall
  | get_system_toolkit (sec : Option ToolkitSection) : ToolCall
  | get_callable_commands (format : Option CmdFormat) : ToolCall
  | get_import_statements (format : Option ImpFormat) : ToolCall
  | get_api_reference : ToolCall
  | get_cli_reference (category : Option CliCategory) : ToolCall
  | get_cost_reference : ToolCall
  | get_pipeline_reference : ToolCall
  | lookup_data_path (t : DataPathType) : ToolCall

/-- Dispatch of a validated tool call to its handler, as the registry built
by createMcpHandler performs it. -/
def invoke (cfg : Config) (o : Collab) : ToolCall → Envelope × List Request
  | .get_current_time => run_get_current_time cfg
  | .supabase_query table sel filter lim => run_supabase_query cfg o table sel filter lim
  | .supabase_insert table data => run_supabase_insert cfg o table data
  | .supabase_update table data filter => run_supabase_update cfg o table data filter
  | .supabase_delete table filter => run_supabase_delete cfg o table filter
  | .run_terminal_command command intent => run_run_terminal_command cfg o command intent
  | .check_command_status task_id => run_check_command_status cfg o task_id
  | .get_pending_commands lim => run_get_pending_commands cfg o lim
  | .get_recent_commands lim status => run_get_recent_commands cfg o lim status
  | .create_terminal_session name wd at_ => run_create_terminal_session cfg o name wd at_
  | .list_terminal_sessions status => run_list_terminal_sessions cfg o status
  | .switch_terminal_session sid => run_switch_terminal_session cfg o sid
  | .close_terminal_session sid => run_close_terminal_session cfg o sid
  | .start_claude_agent name wd p mdl => run_start_claude_agent cfg o name wd p mdl
  | .send_to_claude_agent sid msg => run_send_to_claude_agent cfg o sid msg
  | .get_claude_agent_status sid => run_get_claude_agent_status cfg o sid
  | .list_claude_agents => run_list_claude_agents cfg o
  | .store_memory k v c => run_store_memory cfg o k v c
  | .recall_memory k c => run_recall_memory cfg o k c
  | .get_system_toolkit sec => run_get_system_toolkit cfg o sec
  | .get_callable_commands f => run_get_callable_commands cfg o f
  | .get_import_statements f => run_get_import_statements cfg o f
  | .get_api_reference => run_get_api_reference cfg o
  | .get_cli_reference c => run_get_cli_reference cfg o c
  | .get_cost_reference => run_get_cost_reference cfg o
  | .get_pipeline_reference => run_get_pipeline_reference cfg o
  | .lookup_data_path t => run_lookup_data_path cfg o t

/-- Per-tool bound on the number of outbound calls, read off the handler
bodies: the four session or agent tools that queue a follow-up task or
activity write make two or three calls, every other handler at most one. -/
def maxCalls : ToolCall → Nat
  | .switch_terminal_session _ => 2
  | .close_terminal_session _ => 2
  | .start_claude_agent _ _ _ _ => 2
  | .send_to_claude_agent _ _ => 3
  | .get_claude_agent_status _ => 2
  | _ => 1

/-- An incoming HTTP request as the authentication gate sees it: the
x-api-key header and the authorization header, when present. -/
structure AuthRequest where
  xApiKey : Option String
  authorization : Option String

/-- Result of the authentication gate: the request is forwarded to the tool
registry unmodified, or rejected with an HTTP status and a JSON-RPC error
code. -/
inductive AuthResult where
  | forwarded : AuthResult
  | rejected (status : Nat) (code : Int) : AuthResult
deriving DecidableEq

/-- Modelled from the spec: the API-key authentication gate guarding the
HTTP entrypoint is not present in the source snapshot under src/ (no auth
check appears in the route file); sections 4.1 and 6 of the specification
describe it: the caller credential is the x-api-key header, or the
authorization header stripped of its Bearer prefix; it is compared with the
configured secret by exact string equality; an unconfigured secret allows
all requests; a mismatch or missing credential yields HTTP 401 with
JSON-RPC error code -32001. -/
def bearerToken (a : String) : Option String :=
  match a.data with
  | 'B' :: 'e' :: 'a' :: 'r' :: 'e' :: 'r' :: ' ' :: rest => some (String.mk rest)
  | _ => none

/-- Modelled from the spec: the caller credential the gate compares, the
x-api-key header when present, else the token of a Bearer-shaped
authorization header. -/
def credentialOf (req : AuthRequest) : Option String :=
  match req.xApiKey with
  | some k => some k
  | none =>
    match req.authorization with
    | some a => bearerToken a
    | none => none

/-- Modelled from the spec: the decision of the authentication gate given
the configured secret (none when unset) and the incoming request. -/
def authGate (secret : Option String) (req : AuthRequest) : AuthResult :=
  match secret with
  | none => .forwarded
  | some s =>
    match credentialOf req with
    | some c => if c = s then .forwarded else .rejected 401 (-32001)
    | none => .rejected 401 (-32001)

/-! POSIX shell quote removal for a single word built from single-quoted
segments and backslash escapes: inside single quotes every character up to
the closing quote is literal; outside, a backslash makes the next character
literal and a single quote opens a quoted segment. Other outside-quote
characters stand for themselves; the escaped words this development applies
it to only place quotes and backslashes outside quoted segments. The result
is none for an unterminated quote or a trailing backslash. -/
mutual

/-- Quote removal outside a quoted segment: a single quote opens a segment,
a backslash makes the following character literal (none on a trailing
backslash), any other character stands for itself. -/
def unqOut : List Char → Option (List Char)
  | [] => some []
  | c :: rest =>
    if c = sqChar then unqIn rest
    else if c = bsChar then
      match rest with
      | [] => none
      | c2 :: rest2 => (unqOut rest2).map (fun l => c2 :: l)
    else (unqOut rest).map (fun l => c :: l)

/-- Quote removal inside a single-quoted segment: every character up to the
closing quote is literal; none on an unterminated segment. -/
def unqIn : List Char → Option (List Char)
  | [] => none
  | c :: rest =>
    if c = sqChar then unqOut rest
    else (unqIn rest).map (fun l => c :: l)

end

/-- Quote removal of a whole word, starting outside quotes. -/
def shellUnquote (w : List Char) : Option (List Char) := unqOut w

/-- The operator names the supabase_query filter schema accepts
(route.ts line 66). -/
def queryOperators : List String :=
  ["eq", "neq", "gt", "gte", "lt", "lte", "like", "ilike"]

/-- The operator names the supabase_update filter schema accepts
(route.ts line 149). -/
def updateOperators : List String := ["eq", "neq", "gt", "gte", "lt", "lte"]

/-- The operator names the supabase_delete filter schema accepts
(route.ts line 191). -/
def deleteOperators : List String := ["eq", "neq", "gt", "gte", "lt", "lte"]

/-- Whether a zod enum with the given variants accepts a string. -/
def zodEnumAccepts (variants : List String) (s : String) : Bool :=
  variants.contains s

/-- One row of the agent_memory table as the two memory tools read and
write it. -/
structure MemRow where
  key : String
  value : String
  category : String
  updated_at : String
deriving DecidableEq

/-- JSON form of an agent_memory row as the database returns it. -/
def MemRow.toJson (r : MemRow) : Json :=
  .obj [("key", .str r.key), ("value", .str r.value),
        ("category", .str r.category), ("updated_at", .str r.updated_at)]

/-- Modelled behaviour of the external database on the upsert request
store_memory issues with onConflict key: the row replaces an existing row
with the same key, or is appended. -/
def memUpsert (rows : List MemRow) (r : MemRow) : List MemRow :=
  if rows.any (fun x => x.key == r.key) then
    rows.map (fun x => if x.key == r.key then r else x)
  else rows ++ [r]

/-- Whether an agent_memory row satisfies one eq filter on the key or
category column, as the database evaluates the filters recall_memory sends. -/
def memMatches (r : MemRow) (f : SbFilter) : Bool :=
  if f.column == "key" && f.operator == "eq" then
    match f.value with
    | .s s => r.key == s
    | _ => false
  else if f.column == "category" && f.operator == "eq" then
    match f.value with
    | .s s => r.category == s
    | _ => false
  else false

/-- Modelled behaviour of the external database on the select request
recall_memory issues: rows satisfying every filter, up to the limit. -/
def memSelect (rows : List MemRow) (filters : List SbFilter) (lim : Nat) :
    List MemRow :=
  (rows.filter (fun r => filters.all (memMatches r))).take lim

/-- Substring test on character lists. -/
def containsSub (hay needle : List Char) : Bool :=
  match hay with
  | [] => needle.isEmpty
  | _ :: t => needle.isPrefixOf hay || containsSub t needle

/-- Whether a string contains another as a substring. -/
def containsStr (hay needle : String) : Bool := containsSub hay.data needle.data

/-- Number of database requests in a trace. -/
def dbCount (tr : List Request) : Nat :=
  (tr.filter (fun r => match r with | .db _ => true | _ => false)).length

/-- Number of HTTP requests in a trace. -/
def httpCount (tr : List Request) : Nat :=
  (tr.filter (fun r => match r with | .http _ => true | _ => false)).length

/-- Whether the response to the first outbound call of a trace carries an
error indication: an error field for a database call, a non-ok status for a
fetch. A thrown call is not counted here; the catch-all path reports it
separately. -/
def firstCallErrored (o : Collab) (tr : List Request) : Bool :=
  match tr with
  | .db _ :: _ =>
    match o.db 0 with
    | .resp (some _) _ => true
    | _ => false
  | .http _ :: _ =>
    match o.http 0 with
    | .resp ok _ _ _ => !ok
    | .thrown _ => false
  | [] => false

/-- The session id of the two tools that report a failed session lookup as
Session not found instead of an Error message. -/
def sessionLookupId : ToolCall → Option String
  | .send_to_claude_agent sid _ => some sid
  | .get_claude_agent_status sid => some sid
  | _ => none

/-- Whether a call resolves its payload from the raw response text rather
than from JSON.stringify: get_callable_commands in its default markdown
format and get_import_statements in typescript format. -/
def rawTextCall : ToolCall → Bool
  | .get_callable_commands f => (f.getD .markdown) = CmdFormat.markdown
  | .get_import_statements f => (f.getD .json) = ImpFormat.typescript
  | _ => false

/-- Index of the trailing fire-and-forget database call whose resolved
error field the handler discards: the task insert of the three session
tools, the activity update of send_to_claude_agent, and the recent-tasks
query of get_claude_agent_status. Every other tool has no such call. -/
def fireAndForgetIdx : ToolCall → Option Nat
  | .switch_terminal_session _ => some 1
  | .close_terminal_session _ => some 1
  | .start_claude_agent _ _ _ _ => some 1
  | .send_to_claude_agent _ _ => some 2
  | .get_claude_agent_status _ => some 1
  | _ => none


/-- A concrete configuration with Supabase configured and the clock at the
Unix epoch, used by concrete instantiations of the theorems. -/
def cfg0 : Config := ⟨true, none, 0, "r0", "fmt"⟩

/-- A collaborator whose database calls all succeed with no data and whose
fetches succeed with a null JSON body. -/
def oDbOk : Collab :=
  ⟨fun _ => DbOutcome.resp none none, fun _ => HttpOutcome.resp true 200 Json.null ""⟩

/-- A collaborator whose database calls all return an error field. -/
def oDbErr : Collab :=
  ⟨fun _ => DbOutcome.resp (some "boom") none, fun _ => HttpOutcome.resp true 200 Json.null ""⟩

/-- A collaborator whose fetches succeed with an empty object body whose
text reads hello. -/
def oHttpOk : Collab :=
  ⟨fun _ => DbOutcome.resp none none, fun _ => HttpOutcome.resp true 200 (Json.obj []) "hello"⟩

/-- A collaborator that answers the recall select faithfully from the
key-value store obtained by upserting the stored row into an empty table. -/
def oC7 : Collab :=
  ⟨fun _ => DbOutcome.resp none (some (.arr
      ((memSelect (memUpsert [] ⟨"k1", "v1", "general", isoNow cfg0⟩)
        [(⟨"key", "eq", SbValue.s "k1"⟩ : SbFilter)] 20).map MemRow.toJson))),
   fun _ => HttpOutcome.thrown "x"⟩

/-- A collaborator whose first database call succeeds with no data and whose
later database calls all return an explicit error field, exercising the
fire-and-forget discard paths. -/
def oLateErr : Collab :=
  ⟨fun n => if n = 0 then DbOutcome.resp none none
            else DbOutcome.resp (some "late boom") none,
   fun _ => HttpOutcome.resp true 200 Json.null ""⟩

/-- Arithmetic facts about the month extraction of civilFromDays: for a day
of year at most 365, the month offset start is at most the day of year, the
day of month stays below 31, and the month offset is at most 11. -/
theorem mp_facts (doy : Nat) (h : doy ≤ 365) :
    (153 * ((5 * doy + 2) / 153) + 2) / 5 ≤ doy ∧
    doy - (153 * ((5 * doy + 2) / 153) + 2) / 5 ≤ 30 ∧
    (5 * doy + 2) / 153 ≤ 11 := by
  omega

/-- Core inversion step: daysFromCivil applied to the components computed by
civilFromDays recovers the day count, with the format bounds on each
component. -/
theorem from_to_core (era doe yoe doy mp m d y : Nat)
    (hdoe : doe < 146097)
    (hS1 : 365 * yoe + yoe / 4 - yoe / 100 ≤ doe)
    (hS2 : doe ≤ 365 * yoe + yoe / 4 - yoe / 100 + 365)
    (h400 : yoe < 400)
    (hdoy : doy = doe - (365 * yoe + yoe / 4 - yoe / 100))
    (hmp : mp = (5 * doy + 2) / 153)
    (hm : m = if mp < 10 then mp + 3 else mp - 9)
    (hd : d = doy - (153 * mp + 2) / 5 + 1)
    (hy : y = yoe + era * 400)
    (hbound : era * 146097 + doe < 3652365) :
    daysFromCivil (if m ≤ 2 then y + 1 else y) m d = era * 146097 + doe - 719468 ∧
    (if m ≤ 2 then y + 1 else y) < 10000 ∧
    1 ≤ m ∧ m ≤ 12 ∧ 1 ≤ d ∧ d ≤ 31 := by
  have hf := mp_facts doy (by omega)
  rw [← hmp] at hf
  simp only [daysFromCivil]
  rcases Nat.lt_or_ge mp 10 with hc | hc
  · rw [if_pos hc] at hm
    split <;> [omega; skip]
    split <;> [skip; omega]
    have e1 : y / 400 = era := by omega
    have e2 : y % 400 = yoe := by omega
    have e3 : m - 3 = mp := by omega
    rw [e1, e2, e3]
    omega
  · rw [if_neg (Nat.not_lt.mpr hc)] at hm
    split <;> [skip; omega]
    split <;> [omega; skip]
    have e1 : (y + 1 - 1) / 400 = era := by omega
    have e2 : (y + 1 - 1) % 400 = yoe := by omega
    have e3 : m + 9 = mp := by omega
    rw [e1, e2, e3]
    omega

set_option maxHeartbeats 8000000 in
/-- The year-of-era formula of civilFromDays brackets the day of era: the
year start is at most the day of era, which lies within 365 days of it, and
the year of era is below 400. Proved by exhausting the 400 possible years. -/
theorem yoe_bounds (doe : Nat) (h : doe < 146097) :
    365 * ((doe - doe/1460 + doe/36524 - doe/146096)/365)
      + ((doe - doe/1460 + doe/36524 - doe/146096)/365)/4
      - ((doe - doe/1460 + doe/36524 - doe/146096)/365)/100 ≤ doe ∧
    doe ≤ 365 * ((doe - doe/1460 + doe/36524 - doe/146096)/365)
      + ((doe - doe/1460 + doe/36524 - doe/146096)/365)/4
      - ((doe - doe/1460 + doe/36524 - doe/146096)/365)/100 + 365 ∧
    (doe - doe/1460 + doe/36524 - doe/146096)/365 < 400 := by
  set yoe := (doe - doe/1460 + doe/36524 - doe/146096)/365 with hy
  have h400 : yoe < 400 := by omega
  have key : 365 * yoe + yoe / 4 - yoe / 100 ≤ doe ∧
      doe ≤ 365 * yoe + yoe / 4 - yoe / 100 + 365 := by
    interval_cases yoe <;> omega
  exact ⟨key.1, key.2, h400⟩

/-- Calendar roundtrip: for every day count below the year 10000,
daysFromCivil inverts civilFromDays, and the components satisfy the bounds
of the fixed-width date format. -/
theorem calendar_roundtrip (z : Nat) (h : z < 2932897) :
    daysFromCivil (civilFromDays z).1 (civilFromDays z).2.1 (civilFromDays z).2.2 = z ∧
    (civilFromDays z).1 < 10000 ∧
    1 ≤ (civilFromDays z).2.1 ∧ (civilFromDays z).2.1 ≤ 12 ∧
    1 ≤ (civilFromDays z).2.2 ∧ (civilFromDays z).2.2 ≤ 31 := by
  have hdoe : (z + 719468) % 146097 < 146097 := Nat.mod_lt _ (by norm_num)
  have hb := yoe_bounds ((z + 719468) % 146097) hdoe
  have hcore := from_to_core ((z + 719468) / 146097) ((z + 719468) % 146097)
    (((z + 719468) % 146097 - (z + 719468) % 146097 / 1460 + (z + 719468) % 146097 / 36524
        - (z + 719468) % 146097 / 146096) / 365)
    _ _ _ _ _ hdoe hb.1 hb.2.1 hb.2.2 rfl rfl rfl rfl rfl (by omega)
  have hz : (z + 719468) / 146097 * 146097 + (z + 719468) % 146097 - 719468 = z := by omega
  rw [hz] at hcore
  simp only [civilFromDays]
  exact hcore

/-- The digit characters are decimal digits. -/
theorem isDig_digitChar (x : Nat) (h : x < 10) : isDig (digitChar x) = true := by
  interval_cases x <;> decide

/-- Digit value of a digit character. -/
theorem dval_digitChar (x : Nat) (h : x < 10) : dval (digitChar x) = x := by
  interval_cases x <;> decide

/-- Parsing the fixed-width rendering of in-range date and time components
recovers the components and hence the millisecond value they denote. -/
theorem parse_build (y mo dd hh mi ss f : Nat) (hy : y < 10000) (hmo1 : 1 ≤ mo)
    (hmo : mo ≤ 12) (hd1 : 1 ≤ dd) (hd : dd ≤ 31) (hh24 : hh < 24)
    (hmi : mi < 60) (hss : ss < 60) (hf : f < 1000) :
    parseIsoChars (pad4 y ++ '-' :: pad2 mo ++ '-' :: pad2 dd ++
      'T' :: pad2 hh ++ ':' :: pad2 mi ++ ':' :: pad2 ss ++ '.' :: pad3 f ++ ['Z'])
    = some (daysFromCivil y mo dd * 86400000 +
        hh * 3600000 + mi * 60000 + ss * 1000 + f) := by
  have l10 : ∀ a : Nat, a % 10 < 10 := fun a => Nat.mod_lt _ (by norm_num)
  simp only [pad4, pad2, pad3, List.cons_append, List.nil_append, parseIsoChars,
    isDig_digitChar _ (l10 _), dval_digitChar _ (l10 _)]
  have ey : y / 1000 % 10 * 1000 + y / 100 % 10 * 100 + y / 10 % 10 * 10 + y % 10 = y := by
    omega
  have emo : mo / 10 % 10 * 10 + mo % 10 = mo := by omega
  have edd : dd / 10 % 10 * 10 + dd % 10 = dd := by omega
  have ehh : hh / 10 % 10 * 10 + hh % 10 = hh := by omega
  have emi : mi / 10 % 10 * 10 + mi % 10 = mi := by omega
  have ess : ss / 10 % 10 * 10 + ss % 10 = ss := by omega
  have ef : f / 100 % 10 * 100 + f / 10 % 10 * 10 + f % 10 = f := by omega
  simp only [ey, emo, edd, ehh, emi, ess, ef]
  have hcond : (1 ≤ mo && mo ≤ 12 && 1 ≤ dd && dd ≤ 31 && hh < 24 && mi < 60 &&
      ss < 60 : Bool) = true := by
    simp only [Bool.and_eq_true, decide_eq_true_eq]
    omega
  simp [hcond]

/-- Roundtrip of the ISO-8601 model: parsing the rendering of a millisecond
timestamp below the year 10000 recovers the timestamp. -/
theorem iso_roundtrip (n : Nat) (h : n < 253402300800000) :
    parseIsoChars (toISOChars n) = some n := by
  have hdays : n / 86400000 < 2932897 := by omega
  have hc := calendar_roundtrip (n / 86400000) hdays
  simp only [toISOChars]
  rw [parse_build _ _ _ _ _ _ _ hc.2.1 hc.2.2.1 hc.2.2.2.1 hc.2.2.2.2.1
    hc.2.2.2.2.2 (by omega) (by omega) (by omega) (by omega)]
  rw [hc.1]
  have : n / 86400000 * 86400000 + n % 86400000 / 3600000 * 3600000 +
      n % 86400000 % 3600000 / 60000 * 60000 + n % 86400000 % 60000 / 1000 * 1000 +
      n % 86400000 % 1000 = n := by omega
  rw [this]

/-- Simp rule: an empty trace has no database calls. -/
@[simp] theorem dbCount_nil : dbCount [] = 0 := rfl

/-- Simp rule: a database request adds one to the database call count. -/
@[simp] theorem dbCount_cons_db (r : DbReq) (tr : List Request) :
    dbCount (Request.db r :: tr) = dbCount tr + 1 := by
  simp [dbCount]

/-- Simp rule: an HTTP request leaves the database call count unchanged. -/
@[simp] theorem dbCount_cons_http (u : String) (tr : List Request) :
    dbCount (Request.http u :: tr) = dbCount tr := by
  simp [dbCount]

/-- Simp rule: an empty trace has no HTTP calls. -/
@[simp] theorem httpCount_nil : httpCount [] = 0 := rfl

/-- Simp rule: a database request leaves the HTTP call count unchanged. -/
@[simp] theorem httpCount_cons_db (r : DbReq) (tr : List Request) :
    httpCount (Request.db r :: tr) = httpCount tr := by
  simp [httpCount]

/-- Simp rule: an HTTP request adds one to the HTTP call count. -/
@[simp] theorem httpCount_cons_http (u : String) (tr : List Request) :
    httpCount (Request.http u :: tr) = httpCount tr + 1 := by
  simp [httpCount]

/-- Simp rule: first-call classification of a trace headed by a database
request reads the first database outcome. -/
@[simp] theorem firstCallErrored_db (o : Collab) (r : DbReq) (tr : List Request) :
    firstCallErrored o (Request.db r :: tr) =
      (match o.db 0 with
       | DbOutcome.resp (some _) _ => true
       | _ => false) := rfl

/-- Simp rule: first-call classification of a trace headed by an HTTP
request reads the first HTTP outcome. -/
@[simp] theorem firstCallErrored_http (o : Collab) (u : String) (tr : List Request) :
    firstCallErrored o (Request.http u :: tr) =
      (match o.http 0 with
       | HttpOutcome.resp ok _ _ _ => !ok
       | HttpOutcome.thrown _ => false) := rfl

/-- Simp rule: an empty trace has no first call. -/
@[simp] theorem firstCallErrored_nil (o : Collab) : firstCallErrored o [] = false := rfl

/-- C1: with a configured secret S, a request whose credential (the
x-api-key header, or the token of a Bearer-shaped authorization header)
equals S is forwarded to the tool registry, any other request is rejected
with HTTP 401 and JSON-RPC code -32001, and with no configured secret every
request is forwarded. The gate is modelled from the spec, as no
authentication code is present in the source snapshot. -/
theorem c1_auth_gate (S : String) (req : AuthRequest) :
    (credentialOf req = some S → authGate (some S) req = AuthResult.forwarded) ∧
    (credentialOf req ≠ some S → authGate (some S) req = AuthResult.rejected 401 (-32001)) ∧
    (req.xApiKey = some S → credentialOf req = some S) ∧
    (req.xApiKey = none → req.authorization = some ("Bearer " ++ S) →
      credentialOf req = some S) ∧
    authGate none req = AuthResult.forwarded := by
  refine ⟨?_, ?_, ?_, ?_, rfl⟩
  · intro h
    simp [authGate, h]
  · intro h
    simp only [authGate]
    rcases hc : credentialOf req with _ | c
    · rfl
    · by_cases hcs : c = S
      · exact absurd (by rw [hc, hcs]) h
      · simp [hcs]
  · intro h
    simp [credentialOf, h]
  · intro h1 h2
    rcases S with ⟨sd⟩
    simp only [credentialOf, h1, h2]
    rfl

/-- C1 witness: the gate decisions at the concrete secret sk for a matching
x-api-key, a wrong key, a missing credential, a matching Bearer header, and
an unset secret. -/
theorem c1_auth_gate_witness :
    authGate (some "sk") ⟨some "sk", none⟩ = AuthResult.forwarded ∧
    authGate (some "sk") ⟨some "wrong", none⟩ = AuthResult.rejected 401 (-32001) ∧
    authGate (some "sk") ⟨none, none⟩ = AuthResult.rejected 401 (-32001) ∧
    authGate (some "sk") ⟨none, some ("Bearer " ++ "sk")⟩ = AuthResult.forwarded ∧
    authGate none ⟨none, none⟩ = AuthResult.forwarded :=
  ⟨(c1_auth_gate "sk" ⟨some "sk", none⟩).1 (by decide),
   (c1_auth_gate "sk" ⟨some "wrong", none⟩).2.1 (by decide),
   (c1_auth_gate "sk" ⟨none, none⟩).2.1 (by decide),
   (c1_auth_gate "sk" ⟨none, some ("Bearer " ++ "sk")⟩).1
     ((c1_auth_gate "sk" ⟨none, some ("Bearer " ++ "sk")⟩).2.2.2.1 rfl rfl),
   (c1_auth_gate "sk" ⟨none, none⟩).2.2.2.2⟩

/-- C2: every handler issues at most maxCalls outbound requests, a per-tool
bound that is at most three but exceeds one for the session and agent tools;
the claim's blanket bound of one outbound call per invocation is corrected
by this per-tool bound. -/
theorem c2_call_count_bound (cfg : Config) (o : Collab) (c : ToolCall) :
    (invoke cfg o c).2.length ≤ maxCalls c ∧ maxCalls c ≤ 3 := by
  cases c <;>
    simp only [invoke, maxCalls, run_get_current_time, run_supabase_query, run_supabase_insert,
      run_supabase_update, run_supabase_delete, run_run_terminal_command,
      run_check_command_status, run_get_pending_commands, run_get_recent_commands,
      run_create_terminal_session, run_list_terminal_sessions,
      run_switch_terminal_session, run_close_terminal_session,
      run_start_claude_agent, run_send_to_claude_agent, run_get_claude_agent_status,
      run_list_claude_agents, run_store_memory, run_recall_memory,
      run_get_system_toolkit, run_get_callable_commands, run_get_import_statements,
      run_get_api_reference, run_get_cli_reference, run_get_cost_reference,
      run_get_pipeline_reference, run_lookup_data_path, noSupabase] <;>
    (repeat' split) <;> simp

/-- C2 counterexample: switch_terminal_session with a successful
collaborator issues two database calls, refuting the at-most-one bound. -/
theorem c2_switch_two_calls :
    (invoke cfg0 oDbOk (ToolCall.switch_terminal_session "s1")).2.length = 2 ∧
    ¬ ((invoke cfg0 oDbOk (ToolCall.switch_terminal_session "s1")).2.length ≤ 1) := by
  decide

/-- Helper for C3: when the first outbound call of an invocation reports an
error, the envelope is a failure and the text contains Error, except for the
session-lookup tools whose text is Session not found. -/
theorem c3aux1 (cfg : Config) (o : Collab) (c : ToolCall) :
    firstCallErrored o (invoke cfg o c).2 = true →
      (invoke cfg o c).1.isError = some true ∧
      (match sessionLookupId c with
       | none => containsStr (envText (invoke cfg o c).1) "Error" = true
       | some sid => envText (invoke cfg o c).1 = "Session not found: " ++ sid) := by
  cases c <;>
    simp only [invoke, sessionLookupId, run_get_current_time, run_supabase_query,
      run_supabase_insert, run_supabase_update, run_supabase_delete,
      run_run_terminal_command, run_check_command_status, run_get_pending_commands,
      run_get_recent_commands, run_create_terminal_session, run_list_terminal_sessions,
      run_switch_terminal_session, run_close_terminal_session,
      run_start_claude_agent, run_send_to_claude_agent, run_get_claude_agent_status,
      run_list_claude_agents, run_store_memory, run_recall_memory,
      run_get_system_toolkit, run_get_callable_commands, run_get_import_statements,
      run_get_api_reference, run_get_cli_reference, run_get_cost_reference,
      run_get_pipeline_reference, run_lookup_data_path, noSupabase] <;>
    (repeat' split) <;> intro hfe <;>
    first
      | exact ⟨rfl, rfl⟩
      | simp_all

/-- Helper for C3: a thrown database call within the trace yields a failure
envelope whose text contains Error. -/
theorem c3aux2 (cfg : Config) (o : Collab) (c : ToolCall) (i : Nat) (m : String) :
    i < dbCount (invoke cfg o c).2 → o.db i = DbOutcome.thrown m →
      (invoke cfg o c).1.isError = some true ∧
      containsStr (envText (invoke cfg o c).1) "Error" = true := by
  cases c <;>
    simp only [invoke, run_get_current_time, run_supabase_query,
      run_supabase_insert, run_supabase_update, run_supabase_delete,
      run_run_terminal_command, run_check_command_status, run_get_pending_commands,
      run_get_recent_commands, run_create_terminal_session, run_list_terminal_sessions,
      run_switch_terminal_session, run_close_terminal_session,
      run_start_claude_agent, run_send_to_claude_agent, run_get_claude_agent_status,
      run_list_claude_agents, run_store_memory, run_recall_memory,
      run_get_system_toolkit, run_get_callable_commands, run_get_import_statements,
      run_get_api_reference, run_get_cli_reference, run_get_cost_reference,
      run_get_pipeline_reference, run_lookup_data_path, noSupabase] <;>
    (repeat' split) <;> intro hi ht <;>
    first
      | exact ⟨rfl, rfl⟩
      | (rcases i with _ | _ | _ | i <;>
          first | (simp_all; done) | (simp_all; omega) | exact absurd hi (by omega))

/-- Helper for C3: a thrown fetch within the trace yields a failure envelope
whose text contains Error. -/
theorem c3aux3 (cfg : Config) (o : Collab) (c : ToolCall) (j : Nat) (m : String) :
    j < httpCount (invoke cfg o c).2 → o.http j = HttpOutcome.thrown m →
      (invoke cfg o c).1.isError = some true ∧
      containsStr (envText (invoke cfg o c).1) "Error" = true := by
  cases c <;>
    simp only [invoke, run_get_current_time, run_supabase_query,
      run_supabase_insert, run_supabase_update, run_supabase_delete,
      run_run_terminal_command, run_check_command_status, run_get_pending_commands,
      run_get_recent_commands, run_create_terminal_session, run_list_terminal_sessions,
      run_switch_terminal_session, run_close_terminal_session,
      run_start_claude_agent, run_send_to_claude_agent, run_get_claude_agent_status,
      run_list_claude_agents, run_store_memory, run_recall_memory,
      run_get_system_toolkit, run_get_callable_commands, run_get_import_statements,
      run_get_api_reference, run_get_cli_reference, run_get_cost_reference,
      run_get_pipeline_reference, run_lookup_data_path, noSupabase] <;>
    (repeat' split) <;> intro hj ht <;>
    first
      | exact ⟨rfl, rfl⟩
      | (rcases j with _ | j <;>
          first | (simp_all; done) | (simp_all; omega) | exact absurd hj (by omega))

/-- Helper for C3: an explicit error field resolved by the trailing
fire-and-forget call is discarded whenever control reaches that call: the
handler still returns the success envelope with no isError field. -/
theorem c3aux4 (cfg : Config) (o : Collab) (c : ToolCall) (n : Nat) (e : String)
    (d : Option Json) :
    fireAndForgetIdx c = some n → o.db n = DbOutcome.resp (some e) d →
    dbCount (invoke cfg o c).2 = n + 1 →
    (invoke cfg o c).1.isError = none := by
  cases c <;>
    simp only [invoke, fireAndForgetIdx, run_get_current_time, run_supabase_query,
      run_supabase_insert, run_supabase_update, run_supabase_delete,
      run_run_terminal_command, run_check_command_status, run_get_pending_commands,
      run_get_recent_commands, run_create_terminal_session, run_list_terminal_sessions,
      run_switch_terminal_session, run_close_terminal_session,
      run_start_claude_agent, run_send_to_claude_agent, run_get_claude_agent_status,
      run_list_claude_agents, run_store_memory, run_recall_memory,
      run_get_system_toolkit, run_get_callable_commands, run_get_import_statements,
      run_get_api_reference, run_get_cli_reference, run_get_cost_reference,
      run_get_pipeline_reference, run_lookup_data_path, noSupabase] <;>
    (repeat' split) <;> intro h1 h2 h3 <;>
    first
      | rfl
      | (simp_all; done)
      | (simp_all; omega)

/-- C3: for every tool and input, a failing collaborator call yields a
failure envelope in these cases: an explicit error on the first outbound
call, or a thrown database call or fetch anywhere in the trace, give
isError true with a single text payload containing the word Error, except
that a failed session lookup of send_to_claude_agent or
get_claude_agent_status reads Session not found followed by the session
id; no exception propagates, as every handler is a total function into
envelopes. However an explicit error field resolved by the trailing
fire-and-forget call of the five multi-call tools is discarded: the
handler still returns the success envelope with no isError field. -/
theorem c3_failure_envelope (cfg : Config) (o : Collab) (c : ToolCall) :
    (firstCallErrored o (invoke cfg o c).2 = true →
      (invoke cfg o c).1.isError = some true ∧
      (match sessionLookupId c with
       | none => containsStr (envText (invoke cfg o c).1) "Error" = true
       | some sid => envText (invoke cfg o c).1 = "Session not found: " ++ sid)) ∧
    (∀ i m, i < dbCount (invoke cfg o c).2 → o.db i = DbOutcome.thrown m →
      (invoke cfg o c).1.isError = some true ∧
      containsStr (envText (invoke cfg o c).1) "Error" = true) ∧
    (∀ j m, j < httpCount (invoke cfg o c).2 → o.http j = HttpOutcome.thrown m →
      (invoke cfg o c).1.isError = some true ∧
      containsStr (envText (invoke cfg o c).1) "Error" = true) ∧
    (∀ n e d, fireAndForgetIdx c = some n → o.db n = DbOutcome.resp (some e) d →
      dbCount (invoke cfg o c).2 = n + 1 →
      (invoke cfg o c).1.isError = none) :=
  ⟨c3aux1 cfg o c, fun i m => c3aux2 cfg o c i m, fun j m => c3aux3 cfg o c j m,
   fun n e d => c3aux4 cfg o c n e d⟩

/-- C3 witness: supabase_query against a collaborator whose database call
reports an error produces a failure envelope whose text contains Error, and
switch_terminal_session against a collaborator whose trailing fire-and-forget
insert reports an explicit error still returns the success envelope. -/
theorem c3_failure_envelope_witness :
    firstCallErrored oDbErr (invoke cfg0 oDbErr (ToolCall.supabase_query "t" none none none)).2
      = true ∧
    (invoke cfg0 oDbErr (ToolCall.supabase_query "t" none none none)).1.isError = some true ∧
    containsStr (envText (invoke cfg0 oDbErr (ToolCall.supabase_query "t" none none none)).1)
      "Error" = true ∧
    (invoke cfg0 oLateErr (ToolCall.switch_terminal_session "s1")).1.isError = none := by
  have h := (c3_failure_envelope cfg0 oDbErr (ToolCall.supabase_query "t" none none none)).1 rfl
  have h2 := (c3_failure_envelope cfg0 oLateErr
    (ToolCall.switch_terminal_session "s1")).2.2.2 1 "late boom" none rfl rfl (by decide)
  exact ⟨rfl, h.1, h.2, h2⟩

/-- C3 counterexample: a failed session lookup of send_to_claude_agent
produces the failure envelope Session not found, whose text does not
contain the word Error. -/
theorem c3_session_not_found :
    (invoke cfg0 oDbErr (ToolCall.send_to_claude_agent "s1" "hi")).1 =
      errEnv ("Session not found: " ++ "s1") ∧
    (invoke cfg0 oDbErr (ToolCall.send_to_claude_agent "s1" "hi")).1.isError = some true ∧
    containsStr (envText (invoke cfg0 oDbErr (ToolCall.send_to_claude_agent "s1" "hi")).1)
      "Error" = false ∧
    firstCallErrored oDbErr (invoke cfg0 oDbErr (ToolCall.send_to_claude_agent "s1" "hi")).2
      = true := by
  refine ⟨rfl, rfl, by decide, rfl⟩

/-- C4: every operator of the query schema enum is accepted, as is every
operator of the update and delete enums, and the three tools pass the filter
through verbatim to the database request: same column, operator and value,
with no local filtering or coercion. -/
theorem c4_filter_passthrough (cfg : Config) (o : Collab) (table : String)
    (sel : Option String) (lim : Option Int) (f : SbFilter) (data : Json)
    (hcfg : cfg.supabaseConfigured = true) :
    (∀ op ∈ queryOperators, zodEnumAccepts queryOperators op = true) ∧
    (∀ op ∈ updateOperators, zodEnumAccepts updateOperators op = true) ∧
    (∀ op ∈ deleteOperators, zodEnumAccepts deleteOperators op = true) ∧
    (run_supabase_query cfg o table sel (some f) lim).2 =
      [Request.db (DbReq.select table (sel.getD "*") [f] none (some (lim.getD 100)) false)] ∧
    (run_supabase_update cfg o table data f).2 =
      [Request.db (DbReq.update table data [f] (some "*") false)] ∧
    (run_supabase_delete cfg o table f).2 =
      [Request.db (DbReq.delete table [f] (some "*"))] := by
  refine ⟨?_, ?_, ?_, ?_, ?_, ?_⟩
  · intro op hop
    simpa [zodEnumAccepts] using hop
  · intro op hop
    simpa [zodEnumAccepts] using hop
  · intro op hop
    simpa [zodEnumAccepts] using hop
  · simp only [run_supabase_query, hcfg, if_true]
    rcases o.db 0 with ⟨(_ | e), d⟩ | m <;> rfl
  · simp only [run_supabase_update, hcfg, if_true]
    rcases o.db 0 with ⟨(_ | e), d⟩ | m <;> rfl
  · simp only [run_supabase_delete, hcfg, if_true]
    rcases o.db 0 with ⟨(_ | e), d⟩ | m <;> rfl

/-- C4 witness: a query filter with the ilike operator and update and delete
filters with the eq operator appear verbatim in the issued requests. -/
theorem c4_filter_passthrough_witness :
    (∀ op ∈ queryOperators, zodEnumAccepts queryOperators op = true) ∧
    (∀ op ∈ updateOperators, zodEnumAccepts updateOperators op = true) ∧
    (∀ op ∈ deleteOperators, zodEnumAccepts deleteOperators op = true) ∧
    (run_supabase_query ⟨true, none, 0, "r", "f"⟩
        ⟨fun _ => DbOutcome.resp none none, fun _ => HttpOutcome.resp true 200 Json.null ""⟩
        "t" none (some ⟨"c", "ilike", SbValue.s "%x%"⟩) none).2 =
      [Request.db (DbReq.select "t" "*" [⟨"c", "ilike", SbValue.s "%x%"⟩] none (some 100) false)] ∧
    (run_supabase_update ⟨true, none, 0, "r", "f"⟩
        ⟨fun _ => DbOutcome.resp none none, fun _ => HttpOutcome.resp true 200 Json.null ""⟩
        "t" (Json.obj []) ⟨"c", "eq", SbValue.n 3⟩).2 =
      [Request.db (DbReq.update "t" (Json.obj []) [⟨"c", "eq", SbValue.n 3⟩] (some "*") false)] ∧
    (run_supabase_delete ⟨true, none, 0, "r", "f"⟩
        ⟨fun _ => DbOutcome.resp none none, fun _ => HttpOutcome.resp true 200 Json.null ""⟩
        "t" ⟨"c", "eq", SbValue.n 3⟩).2 =
      [Request.db (DbReq.delete "t" [⟨"c", "eq", SbValue.n 3⟩] (some "*"))] := by
  have h := c4_filter_passthrough ⟨true, none, 0, "r", "f"⟩
    ⟨fun _ => DbOutcome.resp none none, fun _ => HttpOutcome.resp true 200 Json.null ""⟩
    "t" none none ⟨"c", "ilike", SbValue.s "%x%"⟩ (Json.obj []) rfl
  have h2 := c4_filter_passthrough ⟨true, none, 0, "r", "f"⟩
    ⟨fun _ => DbOutcome.resp none none, fun _ => HttpOutcome.resp true 200 Json.null ""⟩
    "t" none none ⟨"c", "eq", SbValue.n 3⟩ (Json.obj []) rfl
  exact ⟨h.1, h.2.1, h.2.2.1, h.2.2.2.1, h2.2.2.2.2.1, h2.2.2.2.2.2⟩

/-- C4 counterexample: the update and delete schema enums reject the like
and ilike operators that the query schema accepts. -/
theorem c4_update_rejects_like :
    zodEnumAccepts updateOperators "like" = false ∧
    zodEnumAccepts updateOperators "ilike" = false ∧
    zodEnumAccepts deleteOperators "like" = false ∧
    zodEnumAccepts deleteOperators "ilike" = false ∧
    zodEnumAccepts queryOperators "like" = true := by
  decide

/-- C5: every successful invocation returns a payload that is the JSON
encoding of some value, except for the two raw-text calls:
get_callable_commands in its default markdown format and
get_import_statements in typescript format. -/
theorem c5_success_json (cfg : Config) (o : Collab) (c : ToolCall) :
    (invoke cfg o c).1.isError = none →
    (∃ p, (invoke cfg o c).1 = okEnv (Json.encode p)) ∨ rawTextCall c = true := by
  cases c
  case get_callable_commands f =>
    rcases hf : f.getD CmdFormat.markdown
    · intro _
      exact Or.inr (by simp [rawTextCall, hf])
    · simp only [invoke, run_get_callable_commands, hf]
      (repeat' split) <;> intro h <;>
        first
          | exact Or.inl ⟨_, rfl⟩
          | exact absurd trivial (by assumption)
          | simp [errEnv] at h
          | simp_all
  case get_import_statements f =>
    rcases hf : f.getD ImpFormat.json
    · intro _
      exact Or.inr (by simp [rawTextCall, hf])
    · simp only [invoke, run_get_import_statements, hf]
      (repeat' split) <;> intro h <;>
        first
          | exact Or.inl ⟨_, rfl⟩
          | exact absurd trivial (by assumption)
          | simp [errEnv] at h
          | simp_all
  all_goals (
    simp only [invoke, run_get_current_time, run_supabase_query, run_supabase_insert,
      run_supabase_update, run_supabase_delete, run_run_terminal_command,
      run_check_command_status, run_get_pending_commands, run_get_recent_commands,
      run_create_terminal_session, run_list_terminal_sessions,
      run_switch_terminal_session, run_close_terminal_session,
      run_start_claude_agent, run_send_to_claude_agent, run_get_claude_agent_status,
      run_list_claude_agents, run_store_memory, run_recall_memory,
      run_get_system_toolkit, run_get_api_reference, run_get_cli_reference,
      run_get_cost_reference, run_get_pipeline_reference, run_lookup_data_path,
      noSupabase] <;>
    (repeat' split) <;> intro h <;>
      first
        | exact Or.inl ⟨_, rfl⟩
        | simp [errEnv] at h
        | simp_all)

/-- C5 witness: a successful get_cost_reference returns a JSON-encoded
payload. -/
theorem c5_success_json_witness :
    (invoke cfg0 oHttpOk ToolCall.get_cost_reference).1.isError = none ∧
    ((∃ p, (invoke cfg0 oHttpOk ToolCall.get_cost_reference).1 = okEnv (Json.encode p)) ∨
      rawTextCall ToolCall.get_cost_reference = true) :=
  ⟨rfl, c5_success_json cfg0 oHttpOk ToolCall.get_cost_reference rfl⟩

/-- The leading digit list of a decimal rendering starts with a digit char. -/
theorem natDigits_head (n : Nat) :
    ∃ d, d < 10 ∧ (natDigits n).head? = some (digitChar d) := by
  induction n using Nat.strong_induction_on with
  | _ n ih =>
    rw [natDigits]
    split
    · exact ⟨n, by omega, rfl⟩
    · obtain ⟨d, hd, hh⟩ := ih (n / 10) (by omega)
      refine ⟨d, hd, ?_⟩
      rw [List.head?_append, hh]
      rfl

/-- A digit character is never the hash character. -/
theorem digitChar_ne_hash (d : Nat) (h : d < 10) : digitChar d ≠ Char.ofNat 35 := by
  interval_cases d <;> decide

/-- No JSON encoding starts with the hash character: encodings start with a
brace, bracket, quote, digit, minus sign, or a letter of a literal word. -/
theorem encode_head_ne_hash (p : Json) :
    (Json.encode p).data.head? ≠ some (Char.ofNat 35) := by
  cases p with
  | null =>
    rw [show Json.encode Json.null = "null" from by simp [Json.encode]]
    decide
  | jsUndefValue =>
    rw [show Json.encode Json.jsUndefValue = "undefined" from by simp [Json.encode]]
    decide
  | bool b =>
    cases b
    · rw [show Json.encode (Json.bool false) = "false" from by simp [Json.encode]]
      decide
    · rw [show Json.encode (Json.bool true) = "true" from by simp [Json.encode]]
      decide
  | num n =>
    rw [show Json.encode (Json.num n) = intStr n from by simp [Json.encode]]
    unfold intStr
    split
    · intro hcon
      simp at hcon
    · obtain ⟨d, hd, hh⟩ := natDigits_head n.toNat
      show (String.mk (natDigits n.toNat)).data.head? ≠ some (Char.ofNat 35)
      rw [show (String.mk (natDigits n.toNat)).data = natDigits n.toNat from rfl, hh]
      intro hcon
      exact digitChar_ne_hash d hd (by injection hcon)
  | str s =>
    rw [show Json.encode (Json.str s) = encodeStrLit s from by simp [Json.encode]]
    unfold encodeStrLit
    intro hcon
    simp at hcon
    exact absurd hcon (by decide)
  | arr xs =>
    rw [show Json.encode (Json.arr xs) = "[" ++ encodeElems xs ++ "]" from by
      simp [Json.encode]]
    intro hcon
    rw [String.data_append, String.data_append] at hcon
    simp at hcon
  | obj fs =>
    rw [show Json.encode (Json.obj fs) = "\x7b" ++ encodeFields fs ++ "\x7d" from by
      simp [Json.encode]]
    intro hcon
    rw [String.data_append, String.data_append] at hcon
    simp at hcon

/-- C5 counterexample: get_callable_commands in the default markdown format
succeeds with a text payload that starts with a markdown heading and is not
the JSON encoding of any value. -/
theorem c5_markdown_not_json :
    (invoke cfg0 oHttpOk (ToolCall.get_callable_commands none)).1 =
      okEnv ("# Callable Commands\n\n" ++ "hello") ∧
    (invoke cfg0 oHttpOk (ToolCall.get_callable_commands none)).1.isError = none ∧
    ¬ ∃ p, Json.encode p = "# Callable Commands\n\n" ++ "hello" := by
  refine ⟨rfl, rfl, ?_⟩
  rintro ⟨p, hp⟩
  have h := encode_head_ne_hash p
  rw [hp] at h
  exact h (by decide)

/-- C6: every invocation of every tool returns exactly one envelope of the
uniform shape: a single text content item, and an isError field that is
absent on the success path and true on the failure path. -/
theorem c6_envelope_shape (cfg : Config) (o : Collab) (c : ToolCall) :
    ∃ t, ((invoke cfg o c).1 = okEnv t ∧ (invoke cfg o c).1.isError = none) ∨
         ((invoke cfg o c).1 = errEnv t ∧ (invoke cfg o c).1.isError = some true) := by
  cases c <;>
    simp only [invoke, run_get_current_time, run_supabase_query, run_supabase_insert,
      run_supabase_update, run_supabase_delete, run_run_terminal_command,
      run_check_command_status, run_get_pending_commands, run_get_recent_commands,
      run_create_terminal_session, run_list_terminal_sessions,
      run_switch_terminal_session, run_close_terminal_session,
      run_start_claude_agent, run_send_to_claude_agent, run_get_claude_agent_status,
      run_list_claude_agents, run_store_memory, run_recall_memory,
      run_get_system_toolkit, run_get_callable_commands, run_get_import_statements,
      run_get_api_reference, run_get_cli_reference, run_get_cost_reference,
      run_get_pipeline_reference, run_lookup_data_path, noSupabase] <;>
    (repeat' split) <;>
    first
      | exact ⟨_, Or.inl ⟨rfl, rfl⟩⟩
      | exact ⟨_, Or.inr ⟨rfl, rfl⟩⟩

/-- After an upsert of row r, the rows whose key equals the key of r form a
nonempty list of copies of r. -/
theorem filter_memUpsert (state : List MemRow) (r : MemRow) :
    ∃ l, (memUpsert state r).filter (fun x => x.key == r.key) = r :: l := by
  unfold memUpsert
  split
  · rename_i h
    induction state with
    | nil => simp at h
    | cons a t ih =>
      by_cases ha : (a.key == r.key) = true
      · refine ⟨(t.map (fun x => if x.key == r.key then r else x)).filter
          (fun x => x.key == r.key), ?_⟩
        simp only [List.map_cons, if_pos ha, List.filter_cons]
        rw [if_pos (show (r.key == r.key) = true from by simp)]
      · simp only [List.any_cons, Bool.or_eq_true] at h
        rcases h with h | h
        · exact absurd h ha
        · obtain ⟨l, hl⟩ := ih h
          refine ⟨l, ?_⟩
          simp only [List.map_cons]
          rw [if_neg ha, List.filter_cons_of_neg (by simpa using ha)]
          exact hl
  · rename_i h
    refine ⟨[], ?_⟩
    rw [List.filter_append]
    have h0 : state.filter (fun x => x.key == r.key) = [] := by
      rw [List.filter_eq_nil_iff]
      intro x hx hkey
      exact h (List.any_of_mem (p := fun x => x.key == r.key) hx hkey)
    rw [h0]
    simp

/-- The single eq filter on the key column that recall_memory builds matches
exactly the rows with that key. -/
theorem memMatches_key_eq (x : MemRow) (k : String) :
    ([(⟨"key", "eq", SbValue.s k⟩ : SbFilter)].all (memMatches x)) = (x.key == k) := by
  show (memMatches x ⟨"key", "eq", SbValue.s k⟩ && true) = (x.key == k)
  rw [Bool.and_true]
  rfl

/-- A select for the key of a freshly upserted row returns that row first. -/
theorem memSelect_upsert_head (state : List MemRow) (r : MemRow) :
    ∃ m ∈ memSelect (memUpsert state r)
      [(⟨"key", "eq", SbValue.s r.key⟩ : SbFilter)] 20, m = r := by
  obtain ⟨l, hl⟩ := filter_memUpsert state r
  refine ⟨r, ?_, rfl⟩
  unfold memSelect
  have hfun : (fun x : MemRow =>
      ([(⟨"key", "eq", SbValue.s r.key⟩ : SbFilter)].all (memMatches x)))
      = (fun x => x.key == r.key) := by
    funext x
    exact memMatches_key_eq x r.key
  rw [hfun, hl]
  simp

/-- C7: with the database modelled as a key-value store, for every truthy
key k and value v, store_memory issues exactly the upsert of the row built
from k and v, and then recall_memory with key k issues a select with one eq
filter on the key, succeeds, and its memories array contains an entry whose
value equals v. -/
theorem c7_store_recall_roundtrip (cfg : Config) (o1 o2 : Collab)
    (state : List MemRow) (k v : String) (c : Option String)
    (hcfg : cfg.supabaseConfigured = true) (hk : ¬ k = "")
    (h1 : ∃ d, o1.db 0 = DbOutcome.resp none d)
    (h2 : o2.db 0 = DbOutcome.resp none (some (.arr
      ((memSelect (memUpsert state ⟨k, v, jsStrOrD c "general", isoNow cfg⟩)
        [(⟨"key", "eq", SbValue.s k⟩ : SbFilter)] 20).map MemRow.toJson)))) :
    (run_store_memory cfg o1 k v c).2 =
      [Request.db (.upsert "agent_memory"
        (MemRow.toJson ⟨k, v, jsStrOrD c "general", isoNow cfg⟩) "key")] ∧
    (run_store_memory cfg o1 k v c).1.isError = none ∧
    (run_recall_memory cfg o2 (some k) none).2 =
      [Request.db (.select "agent_memory" "*"
        [(⟨"key", "eq", SbValue.s k⟩ : SbFilter)] none (some 20) false)] ∧
    (run_recall_memory cfg o2 (some k) none).1.isError = none ∧
    (run_recall_memory cfg o2 (some k) none).1 =
      okEnv (Json.encode (.obj [("success", .bool true),
        ("memories", .arr
          ((memSelect (memUpsert state ⟨k, v, jsStrOrD c "general", isoNow cfg⟩)
            [(⟨"key", "eq", SbValue.s k⟩ : SbFilter)] 20).map MemRow.toJson))])) ∧
    ∃ m ∈ memSelect (memUpsert state ⟨k, v, jsStrOrD c "general", isoNow cfg⟩)
        [(⟨"key", "eq", SbValue.s k⟩ : SbFilter)] 20, m.value = v := by
  obtain ⟨d, hd⟩ := h1
  refine ⟨?_, ?_, ?_, ?_, ?_, ?_⟩
  · simp only [run_store_memory, hcfg, if_true, hd]
    rfl
  · simp only [run_store_memory, hcfg, if_true, hd]
    rfl
  · simp only [run_recall_memory, hcfg, if_true, h2, hk, if_false, if_neg hk]
    rfl
  · simp only [run_recall_memory, hcfg, if_true, h2]
    rfl
  · simp only [run_recall_memory, hcfg, if_true, h2, if_neg hk]
    rfl
  · obtain ⟨m, hm, he⟩ := memSelect_upsert_head state ⟨k, v, jsStrOrD c "general", isoNow cfg⟩
    exact ⟨m, hm, by rw [he]⟩

/-- C7 witness: storing under the key k1 into an empty store and recalling
k1 yields an entry whose value is the stored v1. -/
theorem c7_store_recall_roundtrip_witness :
    cfg0.supabaseConfigured = true ∧ ¬("k1" : String) = "" ∧
    ∃ m ∈ memSelect (memUpsert [] ⟨"k1", "v1", "general", isoNow cfg0⟩)
        [(⟨"key", "eq", SbValue.s "k1"⟩ : SbFilter)] 20, m.value = "v1" :=
  ⟨rfl, by decide,
    (c7_store_recall_roundtrip cfg0 oDbOk oC7 [] "k1" "v1" none rfl (by decide)
      ⟨none, rfl⟩ rfl).2.2.2.2.2⟩

/-- C7 counterexample: with the empty key, store_memory still stores a row
keyed on the empty string, but recall_memory sends no key filter at all, so
with twenty other rows in the table the returned memories contain no entry
with the stored value. -/
theorem c7_empty_key_counterexample :
    (run_store_memory cfg0 oDbOk "" "v0" none).1.isError = none ∧
    (run_store_memory cfg0 oDbOk "" "v0" none).2 =
      [Request.db (.upsert "agent_memory"
        (MemRow.toJson ⟨"", "v0", "general", isoNow cfg0⟩) "key")] ∧
    (run_recall_memory cfg0 oDbOk (some "") none).2 =
      [Request.db (.select "agent_memory" "*" [] none (some 20) false)] ∧
    ∀ m ∈ memSelect (memUpsert (List.replicate 20 ⟨"x", "w", "general", "u"⟩)
        ⟨"", "v0", "general", isoNow cfg0⟩) [] 20, ¬ m.value = "v0" := by
  refine ⟨rfl, rfl, rfl, ?_⟩
  decide

/-- C8: supabase_query on table t with limit 5 and no filter issues exactly
one database select with no filter clause and limit 5, and on success the
count field of the envelope equals the number of rows the collaborator
returned. -/
theorem c8_query_limit (cfg : Config) (o : Collab)
    (hcfg : cfg.supabaseConfigured = true) :
    (run_supabase_query cfg o "t" none none (some 5)).2 =
      [Request.db (DbReq.select "t" "*" [] none (some 5) false)] ∧
    ∀ rows, o.db 0 = DbOutcome.resp none (some (Json.arr rows)) →
      (run_supabase_query cfg o "t" none none (some 5)).1 =
        okEnv (Json.encode (Json.obj [("success", Json.bool true),
          ("count", Json.num (Int.ofNat rows.length)),
          ("data", Json.arr rows)])) := by
  constructor
  · simp only [run_supabase_query, hcfg, if_true]
    rcases o.db 0 with ⟨(_ | e), d⟩ | m <;> rfl
  · intro rows h
    simp [run_supabase_query, hcfg, h, jsLenOr0, jsOrNull]

/-- C8 witness: the query against a collaborator returning one row issues
the limit-5 no-filter select and reports count 1. -/
theorem c8_query_limit_witness :
    (run_supabase_query ⟨true, none, 0, "r", "f"⟩
        ⟨fun _ => DbOutcome.resp none (some (Json.arr [Json.obj [("a", Json.num 1)]])),
         fun _ => HttpOutcome.resp true 200 Json.null ""⟩
        "t" none none (some 5)).2 =
      [Request.db (DbReq.select "t" "*" [] none (some 5) false)] ∧
    (run_supabase_query ⟨true, none, 0, "r", "f"⟩
        ⟨fun _ => DbOutcome.resp none (some (Json.arr [Json.obj [("a", Json.num 1)]])),
         fun _ => HttpOutcome.resp true 200 Json.null ""⟩
        "t" none none (some 5)).1 =
      okEnv (Json.encode (Json.obj [("success", Json.bool true),
        ("count", Json.num (Int.ofNat 1)),
        ("data", Json.arr [Json.obj [("a", Json.num 1)]])])) := by
  have h := c8_query_limit ⟨true, none, 0, "r", "f"⟩
    ⟨fun _ => DbOutcome.resp none (some (Json.arr [Json.obj [("a", Json.num 1)]])),
     fun _ => HttpOutcome.resp true 200 Json.null ""⟩ rfl
  exact ⟨h.1, h.2 [Json.obj [("a", Json.num 1)]] rfl⟩

/-- C9: the payload of get_current_time satisfies unix equals the floor of
parsed(iso) divided by 1000: the iso field parses back to the clock's
millisecond timestamp, and the unix field is that timestamp divided by
1000, for every clock below the year-10000 bound of the fixed-width ISO
format. -/
theorem c9_time_unix_iso (cfg : Config) (h : cfg.nowMs < 253402300800000) :
    ∃ ms, parseIsoMs (toISOStringMs cfg.nowMs) = some ms ∧
      jget (timePayload cfg) "iso" = Json.str (toISOStringMs cfg.nowMs) ∧
      jget (timePayload cfg) "unix" = Json.num (Int.ofNat (ms / 1000)) ∧
      (run_get_current_time cfg).1 = okEnv (Json.encode (timePayload cfg)) :=
  ⟨cfg.nowMs, iso_roundtrip cfg.nowMs h, rfl, rfl, rfl⟩

/-- C9 witness: the round trip at the concrete epoch clock. -/
theorem c9_time_unix_iso_witness :
    cfg0.nowMs < 253402300800000 ∧
    ∃ ms, parseIsoMs (toISOStringMs cfg0.nowMs) = some ms ∧
      jget (timePayload cfg0) "iso" = Json.str (toISOStringMs cfg0.nowMs) ∧
      jget (timePayload cfg0) "unix" = Json.num (Int.ofNat (ms / 1000)) ∧
      (run_get_current_time cfg0).1 = okEnv (Json.encode (timePayload cfg0)) :=
  ⟨by decide, c9_time_unix_iso cfg0 (by decide)⟩

/-- Step rule: a single quote inside a quoted segment closes it. -/
theorem unqIn_sq (l : List Char) : unqIn (sqChar :: l) = unqOut l := by
  simp [unqIn]

/-- Step rule: any other character inside a quoted segment is literal. -/
theorem unqIn_other (c : Char) (l : List Char) (h : ¬ c = sqChar) :
    unqIn (c :: l) = (unqIn l).map (fun r => c :: r) := by
  simp [unqIn, h]

/-- Step rule: a single quote outside a quoted segment opens one. -/
theorem unqOut_sq (l : List Char) : unqOut (sqChar :: l) = unqIn l := by
  cases l <;> simp [unqOut, unqIn]

/-- Step rule: a backslash outside quotes makes the next character literal. -/
theorem unqOut_bs (c : Char) (l : List Char) :
    unqOut (bsChar :: c :: l) = (unqOut l).map (fun r => c :: r) := by
  simp [unqOut, show ¬(bsChar = sqChar) from by decide]

/-- Unquoting the escaped prompt up to a closing quote recovers the prompt:
the inductive core of the C10 round trip. -/
theorem shellUnquote_escape (cs : List Char) :
    unqIn (escapePromptChars cs ++ [sqChar]) = some cs := by
  induction cs with
  | nil => simp [escapePromptChars, unqIn_sq, unqOut]
  | cons c rest ih =>
    by_cases hc : c = sqChar
    · subst hc
      have he : escapePromptChars (sqChar :: rest) =
          sqChar :: bsChar :: sqChar :: sqChar :: escapePromptChars rest := by
        simp [escapePromptChars]
      rw [he, List.cons_append, List.cons_append, List.cons_append, List.cons_append,
        unqIn_sq, unqOut_bs, unqOut_sq, ih]
      rfl
    · have he : escapePromptChars (c :: rest) = c :: escapePromptChars rest := by
        simp [escapePromptChars, hc]
      rw [he, List.cons_append, unqIn_other c _ hc, ih]
      rfl

/-- C10: for every nonempty initial prompt p, the queued claude command is
the bare command followed by a space and p wrapped in single quotes with
every single quote replaced by the POSIX escape sequence, and shell
unquoting of that argument yields exactly p. -/
theorem c10_shell_escape_roundtrip (mdl : ClaudeModel) (p : String) (hp : p ≠ "") :
    buildClaudeCmd mdl (some p) = buildClaudeCmd mdl none ++ " " ++
      String.mk (sqChar :: (escapePrompt p).data ++ [sqChar]) ∧
    shellUnquote (sqChar :: (escapePrompt p).data ++ [sqChar]) = some p.data := by
  constructor
  · have hfalse : (p = "") = False := eq_false hp
    simp [buildClaudeCmd, hfalse]
  · show unqOut (sqChar :: ((escapePrompt p).data ++ [sqChar])) = some p.data
    rw [unqOut_sq]
    exact shellUnquote_escape p.data

/-- C10 witness: the round trip at a concrete prompt containing a single
quote. -/
theorem c10_shell_escape_roundtrip_witness :
    String.mk ['a', sqChar, 'b'] ≠ "" ∧
    (buildClaudeCmd ClaudeModel.opus (some (String.mk ['a', sqChar, 'b'])) =
      buildClaudeCmd ClaudeModel.opus none ++ " " ++
        String.mk (sqChar :: (escapePrompt (String.mk ['a', sqChar, 'b'])).data ++ [sqChar]) ∧
     shellUnquote (sqChar :: (escapePrompt (String.mk ['a', sqChar, 'b'])).data ++ [sqChar]) =
       some (String.mk ['a', sqChar, 'b']).data) :=
  ⟨by decide, c10_shell_escape_roundtrip ClaudeModel.opus (String.mk ['a', sqChar, 'b']) (by decide)⟩

/-- C10 counterexample: the empty prompt is falsy in JavaScript, so nothing
is appended: the command is the bare claude invocation, not the quoted
empty string. -/
theorem c10_empty_prompt :
    buildClaudeCmd ClaudeModel.sonnet (some "") = "claude" ∧
    buildClaudeCmd ClaudeModel.sonnet (some "") ≠
      buildClaudeCmd ClaudeModel.sonnet none ++ " " ++
        String.mk (sqChar :: (escapePrompt "").data ++ [sqChar]) := by
  exact ⟨rfl, by decide⟩
